import Mathlib

/-!
# Nexus operator admission: defaulting and validation

A shallow embedding of the admission code of the Nexus operator:

* `api/v1alpha1/defaultable.go`, `api/v1alpha1/validatable.go`: the accessors of `Nexus`;
* `pkg/framework/kind/probes.go`: the probe selectors;
* `pkg/admission/defaults.go`, `pkg/admission/admission.go`: the constants;
* `pkg/admission/defaulter.go`: `SetDefaults` and its passes;
* `pkg/admission/validator.go`: `Validate`;
* `pkg/cluster/discovery/kubernetes.go`: `AnyIngressAvailable`.

Conventions of the embedding.

* A Go pointer field (`*NexusProbe`, `*bool`, `*int`) is an `Option`; dereferencing a nil
  pointer is the fault `Fault.nilPointerDereference`, so every function that dereferences
  returns in `Except Fault`.
* `int32` and `int` values are `Int`: the code only compares and copies them.
* A Go `error` result is an `Option String` (`none` is `nil`) holding the message.
* The two probe pointers of a resource point to distinct objects, as after decoding a
  manifest or after `DeepCopy`.
* Logging and event recording do not touch the resource and are left out.
* The version resolver (`framework.GetLatestMinor`, `framework.GetLatestMicro`) is a network
  service: it is a parameter, threaded with a state so that successive calls may answer
  differently.
-/

namespace Nexus3

/-! ## Data model -/

/-- The runtime faults of the Go code that the embedding tracks. -/
inductive Fault where
  | nilPointerDereference
deriving DecidableEq, Repr

/-- Dereference of a Go pointer: a nil pointer faults. -/
def deref {α : Type} : Option α → Except Fault α
  | some a => .ok a
  | none => .error Fault.nilPointerDereference

/-- Modelled from the spec: the declaration of `NexusProbe` is not among the sources; its five
`int32` tunables are the fields read and written by the accessors of `defaultable.go` and
listed in the data model of the specification. -/
structure NexusProbe where
  InitialDelaySeconds : Int
  TimeoutSeconds : Int
  PeriodSeconds : Int
  SuccessThreshold : Int
  FailureThreshold : Int
deriving DecidableEq, Repr

/-- Modelled from the spec: `corev1.ResourceList`, a map from resource name to quantity,
kept as an association list of the quantity texts. -/
abbrev ResourceList := List (String × String)

/-- Modelled from the spec: `corev1.ResourceRequirements`; each map may be nil. -/
structure ResourceRequirements where
  Limits : Option ResourceList
  Requests : Option ResourceList
deriving DecidableEq, Repr

/-- Modelled from the spec: `NexusAutomaticUpdate`, with the fields used by
`IsUpdateDisabled`, `DisableUpdate`, `IsMinorVersionSet`, `SetMinorVersion`, `MinorVersion`. -/
structure NexusAutomaticUpdate where
  Disabled : Bool
  MinorVersion : Option Int
deriving DecidableEq, Repr

/-- Modelled from the spec: `NexusPersistence`, with the fields used by `IsPersistent`,
`VolumeSize`, `SetVolumeSize`. -/
structure NexusPersistence where
  Persistent : Bool
  VolumeSize : String
deriving DecidableEq, Repr

/-- Modelled from the spec: `NexusNetworkingTLS`, with the fields used by `SecretName` and
`IsTLSMandatory`. -/
structure NexusNetworkingTLS where
  Mandatory : Bool
  SecretName : String
deriving DecidableEq, Repr

/-- Modelled from the spec: `NexusNetworking`. `Expose` is the `*bool` read by `IsExposeSet`
and `ShouldExpose`; `ExposeAs` is a string type (`NexusNetworkingExposeType`), blank when
unset. -/
structure NexusNetworking where
  Expose : Option Bool
  ExposeAs : String
  Host : String
  NodePort : Int
  TLS : NexusNetworkingTLS
deriving DecidableEq, Repr

/-- Modelled from the spec: `NexusSpec`, with the fields named by the accessors of
`defaultable.go` and `validatable.go` and by `AllDefaultsCommunityNexus`. -/
structure NexusSpec where
  Replicas : Int
  Image : String
  ImagePullPolicy : String
  Resources : ResourceRequirements
  UseRedHatImage : Bool
  GenerateRandomAdminPassword : Bool
  ServiceAccountName : String
  LivenessProbe : Option NexusProbe
  ReadinessProbe : Option NexusProbe
  AutomaticUpdate : NexusAutomaticUpdate
  Persistence : NexusPersistence
  Networking : NexusNetworking
deriving DecidableEq, Repr

/-- Modelled from the spec: the `Nexus` resource: its name (`ObjectMeta.Name`, returned by
`GetName`) and its spec. -/
structure Nexus where
  Name : String
  Spec : NexusSpec
deriving DecidableEq, Repr

/-! ## `pkg/framework/kind/probes.go` -/

namespace kind

/-- Go `type ProbeType int`. -/
abbrev ProbeType := Int
/-- Go `type ProbeField int`. -/
abbrev ProbeField := Int

/-- First constant of the block: `iota = 0`. -/
def LivenessProbe : ProbeType := 0
/-- Second constant of the block. -/
def ReadinessProbe : ProbeType := 1
/-- Third constant of the same block: `iota = 2`. -/
def FailureThreshold : ProbeField := 2
/-- Fourth constant. -/
def InitialDelaySeconds : ProbeField := 3
/-- Fifth constant. -/
def PeriodSeconds : ProbeField := 4
/-- Sixth constant. -/
def TimeoutSeconds : ProbeField := 5
/-- Seventh constant. -/
def SuccessThreshold : ProbeField := 6

end kind

/-! ## `pkg/admission/defaults.go` and `pkg/admission/admission.go` -/

/-- The community image. -/
def NexusCommunityImage : String := "docker.io/sonatype/nexus3"
/-- The certified image. -/
def NexusCertifiedImage : String :=
  "registry.connect.redhat.com/sonatype/validatable-repository-manager"
/-- The default volume size. -/
def DefaultVolumeSize : String := "10Gi"

/-- The default resource requirements. -/
def DefaultResources : ResourceRequirements :=
  { Limits := some [("cpu", "2"), ("memory", "2Gi")]
    Requests := some [("cpu", "1"), ("memory", "2Gi")] }

/-- Mirror of `v1alpha1.IngressExposeType`. -/
def ingressExposeType : String := "Ingress"
/-- Mirror of `v1alpha1.RouteExposeType`. -/
def routeExposeType : String := "Route"
/-- Mirror of `v1alpha1.NodePortExposeType`. -/
def nodePortExposeType : String := "NodePort"

/-- Values of `corev1.PullPolicy`. -/
def PullAlways : String := "Always"
/-- Values of `corev1.PullPolicy`. -/
def PullIfNotPresent : String := "IfNotPresent"
/-- Values of `corev1.PullPolicy`. -/
def PullNever : String := "Never"

/-! ## `api/v1alpha1/validatable.go` -/

/-- `IsExposingAs`: string comparison with the configured mechanism. -/
def Nexus.IsExposingAs (n : Nexus) (exposeAs : String) : Bool :=
  n.Spec.Networking.ExposeAs == exposeAs

/-- `NodePort`. -/
def Nexus.NodePort (n : Nexus) : Int := n.Spec.Networking.NodePort

/-- `Host`. -/
def Nexus.Host (n : Nexus) : String := n.Spec.Networking.Host

/-- `SecretName`. -/
def Nexus.SecretName (n : Nexus) : String := n.Spec.Networking.TLS.SecretName

/-- `IsTLSMandatory`. -/
def Nexus.IsTLSMandatory (n : Nexus) : Bool := n.Spec.Networking.TLS.Mandatory

/-- `ShouldExpose` (`defaultable.go`): false when the pointer is nil, else its value. -/
def Nexus.ShouldExpose (n : Nexus) : Bool :=
  match n.Spec.Networking.Expose with
  | none => false
  | some b => b

/-! ## `pkg/admission/validator.go` -/

/-- The `validator` struct: the resource and the two capability flags. -/
structure validator where
  Validatable : Nexus
  routeAvailable : Bool
  ingressAvailable : Bool
deriving DecidableEq, Repr

/-- `validator.validateNetworking`: `none` is a nil error, `some msg` the error built by
`fmt.Errorf`. -/
def validator.validateNetworking (v : validator) : Option String :=
  if !v.Validatable.ShouldExpose then
    none
  else if !v.ingressAvailable && v.Validatable.IsExposingAs ingressExposeType then
    some "ingress expose required, but unavailable"
  else if !v.routeAvailable && v.Validatable.IsExposingAs routeExposeType then
    some "route expose required, but unavailable"
  else if v.Validatable.IsExposingAs nodePortExposeType && v.Validatable.NodePort == 0 then
    some "nodeport expose required, but no port informed"
  else if v.Validatable.IsExposingAs ingressExposeType && v.Validatable.Host.length == 0 then
    some "ingress expose required, but no host informed"
  else if decide (v.Validatable.SecretName.length > 0)
      && !v.Validatable.IsExposingAs ingressExposeType then
    some "tls secret name informed, but using route"
  else if v.Validatable.IsTLSMandatory && !v.Validatable.IsExposingAs routeExposeType then
    some "tls set to mandatory, but using ingress"
  else
    none

/-- `validator.validate`. -/
def validator.validate (v : validator) : Option String :=
  v.validateNetworking

/-! ## `pkg/cluster/discovery/kubernetes.go` -/

/-- The answers of the cluster to the three queries made by the admission code. Each is the
Go pair `(bool, error)`. `hasGroupVersionKind` is not among the sources, so the answers are
parameters: `routeLookup` is what the query for the Route kind yields, the other two are the
results of `IsLegacyIngressAvailable` and `IsIngressAvailable`. -/
structure Discovery where
  routeLookup : Bool × Option String
  IsLegacyIngressAvailable : Bool × Option String
  IsIngressAvailable : Bool × Option String
deriving DecidableEq, Repr

/-- Modelled from the spec: `discovery.IsRouteAvailable` is not among the sources (only its
two callers are). The specification treats a discovery error as "unavailable", and the
comment of both callers reads "if there were errors, these are false": when the query for the
Route kind yields an error, the lookup answers false together with that error, whatever
boolean the query carried; otherwise it answers the availability found, without error. -/
def Discovery.IsRouteAvailable (k : Discovery) : Bool × Option String :=
  match k.routeLookup with
  | (_, some err) => (false, some err)
  | (available, none) => (available, none)

/-- `AnyIngressAvailable`. -/
def Discovery.AnyIngressAvailable (k : Discovery) : Bool × Option String :=
  let (legacyIngressAvailable, legacyErr) := k.IsLegacyIngressAvailable
  let (ingressAvailable, err) := k.IsIngressAvailable
  if legacyErr.isSome && err.isSome then
    (false, legacyErr)
  else
    (legacyIngressAvailable || ingressAvailable, none)

/-- `Validate`: the two lookups, whose errors are only logged, then `validate`. -/
def Validate (k : Discovery) (validatable : Nexus) : Option String :=
  let (routeAvailable, _) := k.IsRouteAvailable
  let (ingressAvailable, _) := k.AnyIngressAvailable
  validator.validate
    { Validatable := validatable
      routeAvailable := routeAvailable
      ingressAvailable := ingressAvailable }

/-! ## `api/v1alpha1/defaultable.go` -/

/-- The default probe. -/
def DefaultProbe : NexusProbe :=
  { InitialDelaySeconds := 240
    TimeoutSeconds := 15
    PeriodSeconds := 10
    SuccessThreshold := 1
    FailureThreshold := 3 }

/-- `Resources`. -/
def Nexus.Resources (n : Nexus) : ResourceRequirements := n.Spec.Resources

/-- `SetResources`. -/
def Nexus.SetResources (n : Nexus) (requirements : ResourceRequirements) : Nexus :=
  { n with Spec := { n.Spec with Resources := requirements } }

/-- `ShouldUseRedHatImage`. -/
def Nexus.ShouldUseRedHatImage (n : Nexus) : Bool := n.Spec.UseRedHatImage

/-- `Image`. -/
def Nexus.Image (n : Nexus) : String := n.Spec.Image

/-- `SetImage`. -/
def Nexus.SetImage (n : Nexus) (img : String) : Nexus :=
  { n with Spec := { n.Spec with Image := img } }

/-- `ImagePullPolicy`. -/
def Nexus.ImagePullPolicy (n : Nexus) : String := n.Spec.ImagePullPolicy

/-- `SetPullPolicy`. -/
def Nexus.SetPullPolicy (n : Nexus) (policy : String) : Nexus :=
  { n with Spec := { n.Spec with ImagePullPolicy := policy } }

/-- `IsProbeSet`. -/
def Nexus.IsProbeSet (n : Nexus) (probeType : kind.ProbeType) : Bool :=
  if probeType = kind.ReadinessProbe then
    n.Spec.ReadinessProbe.isSome
  else
    n.Spec.LivenessProbe.isSome

/-- `livenessProbeValue`: every known field dereferences `Spec.LivenessProbe`. -/
def Nexus.livenessProbeValue (n : Nexus) (field : kind.ProbeField) : Except Fault Int :=
  if field = kind.SuccessThreshold then
    (deref n.Spec.LivenessProbe).map (fun p => p.SuccessThreshold)
  else if field = kind.TimeoutSeconds then
    (deref n.Spec.LivenessProbe).map (fun p => p.TimeoutSeconds)
  else if field = kind.PeriodSeconds then
    (deref n.Spec.LivenessProbe).map (fun p => p.PeriodSeconds)
  else if field = kind.InitialDelaySeconds then
    (deref n.Spec.LivenessProbe).map (fun p => p.InitialDelaySeconds)
  else if field = kind.FailureThreshold then
    (deref n.Spec.LivenessProbe).map (fun p => p.FailureThreshold)
  else
    .ok 0

/-- `readinessProbeValue`: every known field dereferences `Spec.ReadinessProbe`. -/
def Nexus.readinessProbeValue (n : Nexus) (field : kind.ProbeField) : Except Fault Int :=
  if field = kind.SuccessThreshold then
    (deref n.Spec.ReadinessProbe).map (fun p => p.SuccessThreshold)
  else if field = kind.TimeoutSeconds then
    (deref n.Spec.ReadinessProbe).map (fun p => p.TimeoutSeconds)
  else if field = kind.PeriodSeconds then
    (deref n.Spec.ReadinessProbe).map (fun p => p.PeriodSeconds)
  else if field = kind.InitialDelaySeconds then
    (deref n.Spec.ReadinessProbe).map (fun p => p.InitialDelaySeconds)
  else if field = kind.FailureThreshold then
    (deref n.Spec.ReadinessProbe).map (fun p => p.FailureThreshold)
  else
    .ok 0

/-- `ProbeValue`. -/
def Nexus.ProbeValue (n : Nexus) (probeType : kind.ProbeType) (field : kind.ProbeField) :
    Except Fault Int :=
  if probeType = kind.LivenessProbe then
    n.livenessProbeValue field
  else
    n.readinessProbeValue field

/-- Assignment through the `Spec.LivenessProbe` pointer. -/
def Nexus.updateLivenessProbe (n : Nexus) (f : NexusProbe → NexusProbe) : Except Fault Nexus :=
  (deref n.Spec.LivenessProbe).map
    (fun p => { n with Spec := { n.Spec with LivenessProbe := some (f p) } })

/-- Assignment through the `Spec.ReadinessProbe` pointer. -/
def Nexus.updateReadinessProbe (n : Nexus) (f : NexusProbe → NexusProbe) : Except Fault Nexus :=
  (deref n.Spec.ReadinessProbe).map
    (fun p => { n with Spec := { n.Spec with ReadinessProbe := some (f p) } })

/-- `setLivenessProbeValue`. -/
def Nexus.setLivenessProbeValue (n : Nexus) (field : kind.ProbeField) (value : Int) :
    Except Fault Nexus :=
  if field = kind.SuccessThreshold then
    n.updateLivenessProbe (fun p => { p with SuccessThreshold := value })
  else if field = kind.TimeoutSeconds then
    n.updateLivenessProbe (fun p => { p with TimeoutSeconds := value })
  else if field = kind.PeriodSeconds then
    n.updateLivenessProbe (fun p => { p with PeriodSeconds := value })
  else if field = kind.InitialDelaySeconds then
    n.updateLivenessProbe (fun p => { p with InitialDelaySeconds := value })
  else if field = kind.FailureThreshold then
    n.updateLivenessProbe (fun p => { p with FailureThreshold := value })
  else
    .ok n

/-- `setReadinessProbeValue`. -/
def Nexus.setReadinessProbeValue (n : Nexus) (field : kind.ProbeField) (value : Int) :
    Except Fault Nexus :=
  if field = kind.SuccessThreshold then
    n.updateReadinessProbe (fun p => { p with SuccessThreshold := value })
  else if field = kind.TimeoutSeconds then
    n.updateReadinessProbe (fun p => { p with TimeoutSeconds := value })
  else if field = kind.PeriodSeconds then
    n.updateReadinessProbe (fun p => { p with PeriodSeconds := value })
  else if field = kind.InitialDelaySeconds then
    n.updateReadinessProbe (fun p => { p with InitialDelaySeconds := value })
  else if field = kind.FailureThreshold then
    n.updateReadinessProbe (fun p => { p with FailureThreshold := value })
  else
    .ok n

/-- `SetProbeValue`: the liveness branch does not return, so the readiness assignment runs
for both probe types. -/
def Nexus.SetProbeValue (n : Nexus) (probeType : kind.ProbeType) (field : kind.ProbeField)
    (value : Int) : Except Fault Nexus :=
  (if probeType = kind.LivenessProbe then n.setLivenessProbeValue field value else .ok n)
    >>= fun n1 => n1.setReadinessProbeValue field value

/-- `UseDefaultLivenessProbe`. -/
def Nexus.UseDefaultLivenessProbe (n : Nexus) : Nexus :=
  { n with Spec := { n.Spec with LivenessProbe := some DefaultProbe } }

/-- `UseDefaultReadinessProbe`. -/
def Nexus.UseDefaultReadinessProbe (n : Nexus) : Nexus :=
  { n with Spec := { n.Spec with ReadinessProbe := some DefaultProbe } }

/-- `IsUpdateDisabled`. -/
def Nexus.IsUpdateDisabled (n : Nexus) : Bool := n.Spec.AutomaticUpdate.Disabled

/-- `DisableUpdate`. -/
def Nexus.DisableUpdate (n : Nexus) : Nexus :=
  { n with Spec := { n.Spec with AutomaticUpdate := { n.Spec.AutomaticUpdate with Disabled := true } } }

/-- `IsMinorVersionSet`. -/
def Nexus.IsMinorVersionSet (n : Nexus) : Bool := n.Spec.AutomaticUpdate.MinorVersion.isSome

/-- `SetMinorVersion`. -/
def Nexus.SetMinorVersion (n : Nexus) (minor : Int) : Nexus :=
  { n with Spec := { n.Spec with
      AutomaticUpdate := { n.Spec.AutomaticUpdate with MinorVersion := some minor } } }

/-- `MinorVersion`: dereferences the pointer. -/
def Nexus.MinorVersion (n : Nexus) : Except Fault Int := deref n.Spec.AutomaticUpdate.MinorVersion

/-- `IsPersistent`. -/
def Nexus.IsPersistent (n : Nexus) : Bool := n.Spec.Persistence.Persistent

/-- `VolumeSize`. -/
def Nexus.VolumeSize (n : Nexus) : String := n.Spec.Persistence.VolumeSize

/-- `SetVolumeSize`. -/
def Nexus.SetVolumeSize (n : Nexus) (volumeSize : String) : Nexus :=
  { n with Spec := { n.Spec with Persistence := { n.Spec.Persistence with VolumeSize := volumeSize } } }

/-- `ServiceAccount`. -/
def Nexus.ServiceAccount (n : Nexus) : String := n.Spec.ServiceAccountName

/-- `SetServiceAccount`. -/
def Nexus.SetServiceAccount (n : Nexus) (svcAccnt : String) : Nexus :=
  { n with Spec := { n.Spec with ServiceAccountName := svcAccnt } }

/-- `IsExposeSet`. -/
def Nexus.IsExposeSet (n : Nexus) : Bool := n.Spec.Networking.Expose.isSome

/-- `ExposeAs`. -/
def Nexus.ExposeAs (n : Nexus) : String := n.Spec.Networking.ExposeAs

/-- `SetExpose`. -/
def Nexus.SetExpose (n : Nexus) (expose : Bool) : Nexus :=
  { n with Spec := { n.Spec with Networking := { n.Spec.Networking with Expose := some expose } } }

/-- `SetExposeAs`. -/
def Nexus.SetExposeAs (n : Nexus) (exposeAs : String) : Nexus :=
  { n with Spec := { n.Spec with Networking := { n.Spec.Networking with ExposeAs := exposeAs } } }

/-- `GetName` of the embedded object metadata. -/
def Nexus.GetName (n : Nexus) : String := n.Name

/-! ## `pkg/framework` (version resolver) -/

/-- The version resolver. `GetLatestMinor` and `GetLatestMicro` are not among the sources:
they query a remote registry. They are parameters; `σ` is the state of the outside world, so
that two calls in a row need not agree. `GetLatestMinor` answers a minor or an error message,
`GetLatestMicro minor` answers the Go pair `(tag, ok)`. -/
structure Framework (σ : Type) where
  GetLatestMinor : σ → Except String Int × σ
  GetLatestMicro : Int → σ → (String × Bool) × σ

/-- Go `strings.Split(s, ":")[0]`: the text before the first colon, the whole text when
there is none. -/
def splitHead (s : String) : String :=
  String.mk (s.data.takeWhile (fun c => c != ':'))

/-! ## `pkg/admission/defaulter.go` -/

/-- The `defaulter` struct: the resource and the two capability flags. -/
structure defaulter where
  Defaultable : Nexus
  routeAvailable : Bool
  ingressAvailable : Bool
deriving DecidableEq, Repr

/-- Replace the resource held by the defaulter (the Go methods mutate it in place). -/
def defaulter.withNexus (d : defaulter) (n : Nexus) : defaulter :=
  { d with Defaultable := n }

/-- `defaulter.ensureMinimum`. -/
def defaulter.ensureMinimum (value minimum : Int) : Int :=
  if value < minimum then minimum else value

/-- `defaulter.setResourcesDefaults`. -/
def defaulter.setResourcesDefaults (d : defaulter) : defaulter :=
  let resources := d.Defaultable.Resources
  if resources.Requests.isNone && resources.Limits.isNone then
    d.withNexus (d.Defaultable.SetResources DefaultResources)
  else
    d

/-- `defaulter.setImageDefaults`. -/
def defaulter.setImageDefaults (d : defaulter) : defaulter :=
  let d1 :=
    if d.Defaultable.ShouldUseRedHatImage then
      d.withNexus (d.Defaultable.SetImage NexusCertifiedImage)
    else if d.Defaultable.Image.length == 0 then
      d.withNexus (d.Defaultable.SetImage NexusCommunityImage)
    else
      d
  let pullPolicy := d1.Defaultable.ImagePullPolicy
  if decide (pullPolicy.length > 0) && pullPolicy != PullAlways
      && pullPolicy != PullIfNotPresent && pullPolicy != PullNever then
    d1.withNexus (d1.Defaultable.SetPullPolicy "")
  else
    d1

/-- One statement of `setProbeDefaults`:
`d.SetProbeValue(probeType, field, d.ensureMinimum(d.ProbeValue(probeType, field), 1, _))`.
The argument is evaluated first, then the assignment runs. -/
def defaulter.floorProbeValue (d : defaulter) (probeType : kind.ProbeType)
    (field : kind.ProbeField) (minimum : Int) : Except Fault defaulter :=
  d.Defaultable.ProbeValue probeType field >>= fun value =>
  d.Defaultable.SetProbeValue probeType field (defaulter.ensureMinimum value minimum) >>= fun n =>
  .ok (d.withNexus n)

/-- `defaulter.setProbeDefaults`. -/
def defaulter.setProbeDefaults (d : defaulter) : Except Fault defaulter :=
  (if d.Defaultable.IsProbeSet kind.LivenessProbe then
      d.floorProbeValue kind.LivenessProbe kind.FailureThreshold 1 >>= fun d =>
      d.floorProbeValue kind.LivenessProbe kind.InitialDelaySeconds 1 >>= fun d =>
      d.floorProbeValue kind.LivenessProbe kind.PeriodSeconds 1 >>= fun d =>
      d.floorProbeValue kind.LivenessProbe kind.TimeoutSeconds 1
    else
      .ok (d.withNexus d.Defaultable.UseDefaultLivenessProbe)) >>= fun d =>
  d.Defaultable.ProbeValue kind.LivenessProbe kind.SuccessThreshold >>= fun st =>
  (if st != 1 then
      d.Defaultable.SetProbeValue kind.LivenessProbe kind.SuccessThreshold 1 >>= fun n =>
      .ok (d.withNexus n)
    else
      .ok d) >>= fun d =>
  if d.Defaultable.IsProbeSet kind.ReadinessProbe then
    d.floorProbeValue kind.ReadinessProbe kind.FailureThreshold 1 >>= fun d =>
    d.floorProbeValue kind.ReadinessProbe kind.InitialDelaySeconds 1 >>= fun d =>
    d.floorProbeValue kind.ReadinessProbe kind.PeriodSeconds 1 >>= fun d =>
    d.floorProbeValue kind.ReadinessProbe kind.TimeoutSeconds 1 >>= fun d =>
    d.floorProbeValue kind.ReadinessProbe kind.SuccessThreshold 1
  else
    .ok (d.withNexus d.Defaultable.UseDefaultReadinessProbe)

/-- `defaulter.setDeploymentDefaults`. -/
def defaulter.setDeploymentDefaults (d : defaulter) : Except Fault defaulter :=
  d.setResourcesDefaults.setImageDefaults.setProbeDefaults

/-- `defaulter.handleTagFetchError`: besides logging and the event, disables the update. -/
def defaulter.handleTagFetchError (d : defaulter) : defaulter :=
  d.withNexus d.Defaultable.DisableUpdate

/-- `defaulter.setUpdateDefaults`, from the first `GetLatestMicro` call to the end
(`image` is the local computed at the top of the function). -/
def defaulter.setUpdateDefaults.fetchMicro {σ : Type} (fw : Framework σ) (image : String)
    (d : defaulter) (s : σ) : Except Fault (defaulter × σ) :=
  d.Defaultable.MinorVersion >>= fun pinned =>
  let ((tag, ok), s1) := fw.GetLatestMicro pinned s
  let finish (d : defaulter) (tag : String) (s : σ) : Except Fault (defaulter × σ) :=
    let newImage := image ++ ":" ++ tag
    if newImage != d.Defaultable.Image then
      .ok (d.withNexus (d.Defaultable.SetImage newImage), s)
    else
      .ok (d, s)
  if !ok then
    match fw.GetLatestMinor s1 with
    | (.error _, s2) => .ok (d.handleTagFetchError, s2)
    | (.ok minor, s2) =>
      let d1 := d.withNexus (d.Defaultable.SetMinorVersion minor)
      let ((tag1, _), s3) := fw.GetLatestMicro minor s2
      finish d1 tag1 s3
  else
    finish d tag s1

/-- `defaulter.setUpdateDefaults`. -/
def defaulter.setUpdateDefaults {σ : Type} (fw : Framework σ) (d : defaulter) (s : σ) :
    Except Fault (defaulter × σ) :=
  if d.Defaultable.IsUpdateDisabled then
    .ok (d, s)
  else
    let image := splitHead d.Defaultable.Image
    if image != NexusCommunityImage then
      .ok (d.withNexus d.Defaultable.DisableUpdate, s)
    else if !d.Defaultable.IsMinorVersionSet then
      match fw.GetLatestMinor s with
      | (.error _, s1) => .ok (d.handleTagFetchError, s1)
      | (.ok minor, s1) =>
        defaulter.setUpdateDefaults.fetchMicro fw image
          (d.withNexus (d.Defaultable.SetMinorVersion minor)) s1
    else
      defaulter.setUpdateDefaults.fetchMicro fw image d s

/-- `defaulter.setNetworkingDefaults`. -/
def defaulter.setNetworkingDefaults (d : defaulter) : defaulter :=
  if !d.Defaultable.IsExposeSet && d.Defaultable.ExposeAs.length == 0 then
    d.withNexus (d.Defaultable.SetExpose false)
  else if d.Defaultable.ShouldExpose && d.Defaultable.ExposeAs.length == 0 then
    if d.routeAvailable then
      d.withNexus (d.Defaultable.SetExposeAs routeExposeType)
    else if d.ingressAvailable then
      d.withNexus (d.Defaultable.SetExposeAs ingressExposeType)
    else
      d.withNexus (d.Defaultable.SetExposeAs nodePortExposeType)
  else if !d.Defaultable.IsExposeSet then
    d.withNexus (d.Defaultable.SetExpose true)
  else
    d

/-- `defaulter.setPersistenceDefaults`. -/
def defaulter.setPersistenceDefaults (d : defaulter) : defaulter :=
  if d.Defaultable.IsPersistent && d.Defaultable.VolumeSize.length == 0 then
    d.withNexus (d.Defaultable.SetVolumeSize DefaultVolumeSize)
  else
    d

/-- `defaulter.setSecurityDefaults`. -/
def defaulter.setSecurityDefaults (d : defaulter) : defaulter :=
  if d.Defaultable.ServiceAccount.length == 0 then
    d.withNexus (d.Defaultable.SetServiceAccount d.Defaultable.GetName)
  else
    d

/-- `defaulter.setDefaults`: the five passes in order; a fault in one aborts the run. -/
def defaulter.setDefaults {σ : Type} (fw : Framework σ) (d : defaulter) (s : σ) :
    Except Fault (defaulter × σ) :=
  d.setDeploymentDefaults >>= fun d1 =>
  d1.setUpdateDefaults fw s >>= fun (d2, s1) =>
  .ok (d2.setNetworkingDefaults.setPersistenceDefaults.setSecurityDefaults, s1)

/-- `SetDefaults`: the two lookups, whose errors are only logged, then `setDefaults`. The
result is the resource after the run. -/
def SetDefaults {σ : Type} (k : Discovery) (fw : Framework σ) (defaultable : Nexus) (s : σ) :
    Except Fault (Nexus × σ) :=
  let (routeAvailable, _) := k.IsRouteAvailable
  let (ingressAvailable, _) := k.AnyIngressAvailable
  defaulter.setDefaults fw
    { Defaultable := defaultable
      routeAvailable := routeAvailable
      ingressAvailable := ingressAvailable } s >>= fun (d, s1) =>
  .ok (d.Defaultable, s1)

/-! ## Sample data -/

/-- `AllDefaultsCommunityNexus` of `defaultable.go`; the fields it does not name hold their Go
zero value. -/
def AllDefaultsCommunityNexus : Nexus :=
  { Name := "default-community-nexus"
    Spec :=
      { Replicas := 0
        Image := NexusCommunityImage
        ImagePullPolicy := ""
        Resources := DefaultResources
        UseRedHatImage := false
        GenerateRandomAdminPassword := false
        ServiceAccountName := "default-community-nexus"
        LivenessProbe := some DefaultProbe
        ReadinessProbe := some DefaultProbe
        AutomaticUpdate := { Disabled := false, MinorVersion := none }
        Persistence := { Persistent := false, VolumeSize := "" }
        Networking :=
          { Expose := none
            ExposeAs := ""
            Host := ""
            NodePort := 0
            TLS := { Mandatory := false, SecretName := "" } } } }

/-- A resolver that cannot reach the registry: every minor lookup fails, no micro is found. -/
def offlineFramework : Framework Unit :=
  { GetLatestMinor := fun s => (.error "registry unreachable", s)
    GetLatestMicro := fun _ s => (("", false), s) }

/-- A resolver in front of a registry whose latest minor is 29, with micro tag `3.29.2`, and
which knows no other minor. -/
def registryFramework : Framework Unit :=
  { GetLatestMinor := fun s => (.ok 29, s)
    GetLatestMicro := fun minor s => (if minor = 29 then ("3.29.2", true) else ("", false), s) }

/-- A resolver that answers the first latest minor lookup with 30 and fails at every later
one, and that finds no micro tag for any minor. Its state counts the latest minor lookups. -/
def flakyFramework : Framework Nat :=
  { GetLatestMinor := fun calls =>
      (if calls = 0 then .ok 30 else .error "registry unreachable", calls + 1)
    GetLatestMicro := fun _ calls => (("", false), calls) }

/-- A resolver whose latest minor is 30 although no micro tag is found for any minor: every
micro lookup answers the empty tag and not found. -/
def inconsistentFramework : Framework Unit :=
  { GetLatestMinor := fun s => (.ok 30, s)
    GetLatestMicro := fun _ s => (("", false), s) }

/-- Replace the image settings of a resource. -/
def Nexus.withImage (n : Nexus) (useRedHatImage : Bool) (image : String) : Nexus :=
  { n with Spec := { n.Spec with UseRedHatImage := useRedHatImage, Image := image } }

/-- Replace the automatic update settings of a resource. -/
def Nexus.withUpdate (n : Nexus) (disabled : Bool) (minorVersion : Option Int) : Nexus :=
  { n with Spec := { n.Spec with
      AutomaticUpdate := { Disabled := disabled, MinorVersion := minorVersion } } }

/-- Replace the exposure settings of a resource. -/
def Nexus.withExpose (n : Nexus) (expose : Option Bool) (exposeAs : String) : Nexus :=
  { n with Spec := { n.Spec with
      Networking := { n.Spec.Networking with Expose := expose, ExposeAs := exposeAs } } }

/-- Replace the networking settings of a resource. -/
def Nexus.withNetworking (n : Nexus) (networking : NexusNetworking) : Nexus :=
  { n with Spec := { n.Spec with Networking := networking } }

/-- Replace the persistence settings of a resource. -/
def Nexus.withPersistence (n : Nexus) (persistent : Bool) (volumeSize : String) : Nexus :=
  { n with Spec := { n.Spec with
      Persistence := { Persistent := persistent, VolumeSize := volumeSize } } }

/-- A resource that asks for an Ingress and names no host. -/
def ingressWithoutHost : Nexus :=
  { AllDefaultsCommunityNexus with
    Spec := { AllDefaultsCommunityNexus.Spec with
      Networking := { AllDefaultsCommunityNexus.Spec.Networking with
        Expose := some true, ExposeAs := "Ingress" } } }

/-- A defaulter on a cluster without routes and ingresses. -/
def plainDefaulter (n : Nexus) : defaulter :=
  { Defaultable := n, routeAvailable := false, ingressAvailable := false }

/-- Replace both probes of a resource. -/
def Nexus.withProbes (n : Nexus) (liveness readiness : Option NexusProbe) : Nexus :=
  { n with Spec := { n.Spec with LivenessProbe := liveness, ReadinessProbe := readiness } }

/-! ## Definitions in the words of the specification -/

/-- The six rejection reasons of the specification, in the order the rules are listed. -/
inductive Reason where
  | ingressUnavailable
  | routeUnavailable
  | nodeportMissingPort
  | ingressMissingHost
  | secretNameRequiresIngress
  | mandatoryTLSRequiresRoute
deriving DecidableEq, Repr

/-- The order in which the specification lists the rules. -/
def Reason.inOrder : List Reason :=
  [ .ingressUnavailable, .routeUnavailable, .nodeportMissingPort, .ingressMissingHost,
    .secretNameRequiresIngress, .mandatoryTLSRequiresRoute ]

/-- The condition of each rule, in the words of the specification, on a configuration and a
capability snapshot. -/
def Reason.holds (v : validator) : Reason → Prop
  | .ingressUnavailable =>
      v.Validatable.Spec.Networking.ExposeAs = "Ingress" ∧ v.ingressAvailable = false
  | .routeUnavailable =>
      v.Validatable.Spec.Networking.ExposeAs = "Route" ∧ v.routeAvailable = false
  | .nodeportMissingPort =>
      v.Validatable.Spec.Networking.ExposeAs = "NodePort" ∧ v.Validatable.Spec.Networking.NodePort = 0
  | .ingressMissingHost =>
      v.Validatable.Spec.Networking.ExposeAs = "Ingress" ∧ v.Validatable.Spec.Networking.Host = ""
  | .secretNameRequiresIngress =>
      v.Validatable.Spec.Networking.TLS.SecretName ≠ "" ∧
        v.Validatable.Spec.Networking.ExposeAs ≠ "Ingress"
  | .mandatoryTLSRequiresRoute =>
      v.Validatable.Spec.Networking.TLS.Mandatory = true ∧
        v.Validatable.Spec.Networking.ExposeAs ≠ "Route"

/-- Each rule condition is decidable. -/
instance Reason.decidableHolds (v : validator) : (r : Reason) → Decidable (r.holds v)
  | .ingressUnavailable => inferInstanceAs (Decidable (_ ∧ _))
  | .routeUnavailable => inferInstanceAs (Decidable (_ ∧ _))
  | .nodeportMissingPort => inferInstanceAs (Decidable (_ ∧ _))
  | .ingressMissingHost => inferInstanceAs (Decidable (_ ∧ _))
  | .secretNameRequiresIngress => inferInstanceAs (Decidable (_ ∧ _))
  | .mandatoryTLSRequiresRoute => inferInstanceAs (Decidable (_ ∧ _))

/-- The error text with which the code reports each reason. -/
def Reason.message : Reason → String
  | .ingressUnavailable => "ingress expose required, but unavailable"
  | .routeUnavailable => "route expose required, but unavailable"
  | .nodeportMissingPort => "nodeport expose required, but no port informed"
  | .ingressMissingHost => "ingress expose required, but no host informed"
  | .secretNameRequiresIngress => "tls secret name informed, but using route"
  | .mandatoryTLSRequiresRoute => "tls set to mandatory, but using ingress"

/-- The first rule, in the order of the specification, whose condition holds. -/
def firstViolatedRule (v : validator) : Option Reason :=
  Reason.inOrder.find? (fun r => decide (r.holds v))

/-! ## Closed form of the probe pass -/

/-- Closed form of what a complete run does to the two probes: the fault when only the
liveness probe is set, else the pair (liveness, readiness) after the run. It is proved equal
to the code in `setProbeDefaults_eq`. -/
def probesAfterDefaulting :
    Option NexusProbe → Option NexusProbe → Except Fault (NexusProbe × NexusProbe)
  | none, none => .ok (DefaultProbe, DefaultProbe)
  | none, some r =>
      .ok (DefaultProbe,
        { InitialDelaySeconds := max r.InitialDelaySeconds 1
          TimeoutSeconds := max r.TimeoutSeconds 1
          PeriodSeconds := max r.PeriodSeconds 1
          SuccessThreshold := max r.SuccessThreshold 1
          FailureThreshold := max r.FailureThreshold 1 })
  | some _, none => .error Fault.nilPointerDereference
  | some l, some r =>
      .ok ({ InitialDelaySeconds := max l.InitialDelaySeconds 1
             TimeoutSeconds := max l.TimeoutSeconds 1
             PeriodSeconds := max l.PeriodSeconds 1
             SuccessThreshold := 1
             FailureThreshold := max l.FailureThreshold 1 },
           { InitialDelaySeconds := max l.InitialDelaySeconds 1
             TimeoutSeconds := max l.TimeoutSeconds 1
             PeriodSeconds := max l.PeriodSeconds 1
             SuccessThreshold := if l.SuccessThreshold = 1 then max r.SuccessThreshold 1 else 1
             FailureThreshold := max l.FailureThreshold 1 })

/-! ## Lemmas on the validator -/

/-- Go `len(s) == 0` is emptiness. -/
theorem string_length_eq_zero_iff (s : String) : s.length = 0 ↔ s = "" := by
  cases s with | mk l => cases l <;> simp [String.length, String.ext_iff]

/-- Go `len(s) > 0` is non-emptiness. -/
theorem string_length_pos_iff (s : String) : 0 < s.length ↔ s ≠ "" := by
  cases s with | mk l => cases l <;> simp [String.length, String.ext_iff]

/-- The validator returns the message of the first violated rule, and only when `expose` is
true. -/
theorem validate_eq_firstViolatedRule (v : validator) :
    v.validate =
      if v.Validatable.Spec.Networking.Expose = some true then
        (firstViolatedRule v).map Reason.message
      else none := by
  rcases v with ⟨⟨name, spec⟩, route, ingress⟩
  rcases spec with ⟨_, _, _, _, _, _, _, _, _, _, _, net⟩
  rcases net with ⟨expose, exposeAs, host, port, ⟨mand, secret⟩⟩
  simp only [validator.validate, validator.validateNetworking, Nexus.ShouldExpose,
    Nexus.IsExposingAs, Nexus.NodePort, Nexus.Host, Nexus.SecretName, Nexus.IsTLSMandatory,
    firstViolatedRule, Reason.inOrder, List.find?, Reason.holds, ingressExposeType,
    routeExposeType, nodePortExposeType]
  rcases expose with _ | _ | _
  · simp
  · simp
  · cases route <;> cases ingress <;> cases mand <;>
      by_cases h1 : exposeAs = "Ingress" <;> by_cases h2 : exposeAs = "Route" <;>
      by_cases h3 : exposeAs = "NodePort" <;> by_cases h4 : port = 0 <;>
      by_cases h5 : host = "" <;> by_cases h6 : secret = "" <;>
      simp_all [string_length_eq_zero_iff, string_length_pos_iff, Reason.message]

/-! ## Lemmas on the probe pass -/

/-- `ensureMinimum` is the maximum of its arguments. -/
theorem ensureMinimum_eq_max (value minimum : Int) :
    defaulter.ensureMinimum value minimum = max value minimum := by
  unfold defaulter.ensureMinimum
  split_ifs with h
  · exact (max_eq_right (le_of_lt h)).symm
  · exact (max_eq_left (not_lt.mp h)).symm

/-- The probe pass in closed form. -/
theorem setProbeDefaults_eq (d : defaulter) :
    d.setProbeDefaults =
      (probesAfterDefaulting d.Defaultable.Spec.LivenessProbe
          d.Defaultable.Spec.ReadinessProbe).map
        (fun p => d.withNexus (d.Defaultable.withProbes (some p.1) (some p.2))) := by
  rcases d with ⟨⟨name, spec⟩, route, ingress⟩
  rcases spec with ⟨a1, a2, a3, a4, a5, a6, a7, L, R, a10, a11, a12⟩
  rcases L with _ | ⟨l1, l2, l3, l4, l5⟩ <;> rcases R with _ | ⟨r1, r2, r3, r4, r5⟩
  all_goals try by_cases h4 : l4 = 1
  all_goals
    simp [*, probesAfterDefaulting, defaulter.setProbeDefaults, defaulter.floorProbeValue,
      Nexus.IsProbeSet,
      Nexus.ProbeValue, Nexus.SetProbeValue, Nexus.livenessProbeValue, Nexus.readinessProbeValue,
      Nexus.setLivenessProbeValue, Nexus.setReadinessProbeValue, Nexus.updateLivenessProbe,
      Nexus.updateReadinessProbe, Nexus.UseDefaultLivenessProbe, Nexus.UseDefaultReadinessProbe,
      defaulter.withNexus, Nexus.withProbes, deref, kind.LivenessProbe, kind.ReadinessProbe,
      kind.FailureThreshold, kind.InitialDelaySeconds, kind.PeriodSeconds, kind.TimeoutSeconds,
      kind.SuccessThreshold, bind, Except.bind, Except.map, ensureMinimum_eq_max, DefaultProbe]

/-- The resources pass and the image pass leave the probes alone. -/
theorem setImageDefaults_setResourcesDefaults_probes (d : defaulter) :
    d.setResourcesDefaults.setImageDefaults.Defaultable.Spec.LivenessProbe
        = d.Defaultable.Spec.LivenessProbe ∧
      d.setResourcesDefaults.setImageDefaults.Defaultable.Spec.ReadinessProbe
        = d.Defaultable.Spec.ReadinessProbe := by
  unfold defaulter.setImageDefaults defaulter.setResourcesDefaults
  simp only [defaulter.withNexus, Nexus.SetResources, Nexus.SetImage, Nexus.SetPullPolicy]
  constructor <;> split_ifs <;> rfl

/-- With the minor version set, the tail of the update pass never faults and leaves the
probes alone. -/
theorem fetchMicro_probes {σ : Type} (fw : Framework σ) (image : String) (d : defaulter)
    (s : σ) (hset : d.Defaultable.IsMinorVersionSet = true) :
    ∃ d1 s1, defaulter.setUpdateDefaults.fetchMicro fw image d s = .ok (d1, s1) ∧
      d1.Defaultable.Spec.LivenessProbe = d.Defaultable.Spec.LivenessProbe ∧
      d1.Defaultable.Spec.ReadinessProbe = d.Defaultable.Spec.ReadinessProbe := by
  obtain ⟨m, hm⟩ := Option.isSome_iff_exists.mp hset
  unfold defaulter.setUpdateDefaults.fetchMicro
  rcases hmic : fw.GetLatestMicro m s with ⟨⟨tag, ok⟩, s1⟩
  simp only [Nexus.MinorVersion, hm, deref, bind, Except.bind, hmic]
  cases ok
  · rcases hmin : fw.GetLatestMinor s1 with ⟨_ | minor, s2⟩
    · exact ⟨_, _, rfl, rfl, rfl⟩
    · rcases hmic1 : fw.GetLatestMicro minor s2 with ⟨⟨tag1, ok1⟩, s3⟩
      simp only [Bool.not_false, if_true]
      split_ifs
      · exact ⟨_, _, rfl, rfl, rfl⟩
      · exact ⟨_, _, rfl, rfl, rfl⟩
  · simp only [Bool.not_true, Bool.false_eq_true, if_false]
    split_ifs
    · exact ⟨_, _, rfl, rfl, rfl⟩
    · exact ⟨_, _, rfl, rfl, rfl⟩

/-- The update pass never faults and leaves the probes alone. -/
theorem setUpdateDefaults_probes {σ : Type} (fw : Framework σ) (d : defaulter) (s : σ) :
    ∃ d1 s1, d.setUpdateDefaults fw s = .ok (d1, s1) ∧
      d1.Defaultable.Spec.LivenessProbe = d.Defaultable.Spec.LivenessProbe ∧
      d1.Defaultable.Spec.ReadinessProbe = d.Defaultable.Spec.ReadinessProbe := by
  unfold defaulter.setUpdateDefaults
  dsimp only
  split_ifs with h1 h2 h3
  · exact ⟨_, _, rfl, rfl, rfl⟩
  · exact ⟨_, _, rfl, rfl, rfl⟩
  · rcases fw.GetLatestMinor s with ⟨_ | minor, s1⟩
    · exact ⟨_, _, rfl, rfl, rfl⟩
    · exact fetchMicro_probes fw _ (d.withNexus (d.Defaultable.SetMinorVersion minor)) s1 rfl
  · exact fetchMicro_probes fw _ d s (by simpa using h3)

/-- The networking, persistence and security passes leave the probes alone. -/
theorem lastPasses_probes (d : defaulter) :
    d.setNetworkingDefaults.setPersistenceDefaults.setSecurityDefaults.Defaultable.Spec.LivenessProbe
        = d.Defaultable.Spec.LivenessProbe ∧
      d.setNetworkingDefaults.setPersistenceDefaults.setSecurityDefaults.Defaultable.Spec.ReadinessProbe
        = d.Defaultable.Spec.ReadinessProbe := by
  unfold defaulter.setSecurityDefaults defaulter.setPersistenceDefaults
    defaulter.setNetworkingDefaults
  simp only [defaulter.withNexus, Nexus.SetExpose, Nexus.SetExposeAs, Nexus.SetVolumeSize,
    Nexus.SetServiceAccount]
  constructor <;> split_ifs <;> rfl

/-- Effect of a complete run on the probes: it faults exactly when the closed form does, and
otherwise ends with the two probes of the closed form. -/
theorem setDefaults_probes {σ : Type} (fw : Framework σ) (d : defaulter) (s : σ) :
    (∀ e, probesAfterDefaulting d.Defaultable.Spec.LivenessProbe
        d.Defaultable.Spec.ReadinessProbe = .error e → d.setDefaults fw s = .error e) ∧
    (∀ l r, probesAfterDefaulting d.Defaultable.Spec.LivenessProbe
        d.Defaultable.Spec.ReadinessProbe = .ok (l, r) →
      ∃ d1 s1, d.setDefaults fw s = .ok (d1, s1) ∧
        d1.Defaultable.Spec.LivenessProbe = some l ∧
        d1.Defaultable.Spec.ReadinessProbe = some r) := by
  obtain ⟨hl, hr⟩ := setImageDefaults_setResourcesDefaults_probes d
  unfold defaulter.setDefaults defaulter.setDeploymentDefaults
  rw [setProbeDefaults_eq, hl, hr]
  constructor
  · intro e he
    rw [he]
    rfl
  · intro l r hlr
    rw [hlr]
    obtain ⟨d2, s1, h2, h2l, h2r⟩ := setUpdateDefaults_probes fw
      (d.setResourcesDefaults.setImageDefaults.withNexus
        (d.setResourcesDefaults.setImageDefaults.Defaultable.withProbes (some l) (some r))) s
    obtain ⟨h3l, h3r⟩ := lastPasses_probes d2
    refine ⟨_, s1, ?_, h3l.trans h2l, h3r.trans h2r⟩
    simp only [Except.map, bind, Except.bind, h2]

/-- Facts about the closed form: liveness `successThreshold` is 1 and every tunable of both
probes is at least 1. -/
theorem probesAfterDefaulting_bounds (L R : Option NexusProbe) (l r : NexusProbe)
    (h : probesAfterDefaulting L R = .ok (l, r)) :
    l.SuccessThreshold = 1 ∧
      (1 ≤ l.InitialDelaySeconds ∧ 1 ≤ l.TimeoutSeconds ∧ 1 ≤ l.PeriodSeconds ∧
        1 ≤ l.SuccessThreshold ∧ 1 ≤ l.FailureThreshold) ∧
      (1 ≤ r.InitialDelaySeconds ∧ 1 ≤ r.TimeoutSeconds ∧ 1 ≤ r.PeriodSeconds ∧
        1 ≤ r.SuccessThreshold ∧ 1 ≤ r.FailureThreshold) := by
  rcases L with _ | l0 <;> rcases R with _ | r0 <;>
    simp only [probesAfterDefaulting, Except.ok.injEq, Prod.mk.injEq, reduceCtorEq] at h
  · obtain ⟨rfl, rfl⟩ := h
    simp [DefaultProbe]
  · obtain ⟨rfl, rfl⟩ := h
    simp [DefaultProbe]
  · obtain ⟨rfl, rfl⟩ := h
    refine ⟨rfl, ⟨le_max_right _ _, le_max_right _ _, le_max_right _ _, le_refl _,
      le_max_right _ _⟩, le_max_right _ _, le_max_right _ _, le_max_right _ _, ?_,
      le_max_right _ _⟩
    dsimp only
    split_ifs
    · exact le_max_right _ _
    · exact le_refl _

/-- A run that completes ends with the probes of the closed form. -/
theorem setDefaults_ok_probes {σ : Type} (fw : Framework σ) (d d1 : defaulter) (s s1 : σ)
    (h : d.setDefaults fw s = .ok (d1, s1)) :
    ∃ l r, probesAfterDefaulting d.Defaultable.Spec.LivenessProbe
        d.Defaultable.Spec.ReadinessProbe = .ok (l, r) ∧
      d1.Defaultable.Spec.LivenessProbe = some l ∧
      d1.Defaultable.Spec.ReadinessProbe = some r := by
  obtain ⟨herr, hok⟩ := setDefaults_probes fw d s
  cases hp : probesAfterDefaulting d.Defaultable.Spec.LivenessProbe
      d.Defaultable.Spec.ReadinessProbe with
  | error e =>
    rw [herr e hp] at h
    cases h
  | ok p =>
    obtain ⟨l, r⟩ := p
    obtain ⟨d2, s2, h2, hl, hr⟩ := hok l r hp
    rw [h2] at h
    cases h
    exact ⟨l, r, rfl, hl, hr⟩

/-- A run faults when the liveness probe is set and the readiness probe is not, whatever
the capabilities and the resolver. -/
theorem setDefaults_faults_of_liveness_without_readiness {σ : Type} (fw : Framework σ)
    (d : defaulter) (s : σ) (l : NexusProbe)
    (hl : d.Defaultable.Spec.LivenessProbe = some l)
    (hr : d.Defaultable.Spec.ReadinessProbe = none) :
    d.setDefaults fw s = .error Fault.nilPointerDereference := by
  apply (setDefaults_probes fw d s).1
  rw [hl, hr]
  rfl

/-- A run completes in every other case. -/
theorem setDefaults_completes {σ : Type} (fw : Framework σ) (d : defaulter) (s : σ)
    (h : d.Defaultable.Spec.LivenessProbe = none ∨ d.Defaultable.Spec.ReadinessProbe ≠ none) :
    ∃ d1 s1, d.setDefaults fw s = .ok (d1, s1) := by
  cases hp : probesAfterDefaulting d.Defaultable.Spec.LivenessProbe
      d.Defaultable.Spec.ReadinessProbe with
  | error e =>
    rcases hL : d.Defaultable.Spec.LivenessProbe with _ | l <;>
      rcases hR : d.Defaultable.Spec.ReadinessProbe with _ | r <;>
      simp_all [probesAfterDefaulting]
  | ok p =>
    obtain ⟨d1, s1, h1, _⟩ := (setDefaults_probes fw d s).2 p.1 p.2 hp
    exact ⟨d1, s1, h1⟩

/-! ## Lemmas on the stages of a run -/

/-- A run that completes went through its three stages in order. -/
theorem setDefaults_ok_stages {σ : Type} (fw : Framework σ) (d d1 : defaulter) (s s1 : σ)
    (h : d.setDefaults fw s = .ok (d1, s1)) :
    ∃ dp d2, d.setDeploymentDefaults = .ok dp ∧ dp.setUpdateDefaults fw s = .ok (d2, s1) ∧
      d1 = d2.setNetworkingDefaults.setPersistenceDefaults.setSecurityDefaults := by
  unfold defaulter.setDefaults at h
  cases hdp : d.setDeploymentDefaults with
  | error e =>
    rw [hdp] at h
    cases h
  | ok dp =>
    rw [hdp] at h
    cases hu : dp.setUpdateDefaults fw s with
    | error e =>
      simp only [bind, Except.bind, hu] at h
      cases h
    | ok p =>
      obtain ⟨d2, s2⟩ := p
      simp only [bind, Except.bind, hu, Except.ok.injEq, Prod.mk.injEq] at h
      obtain ⟨rfl, rfl⟩ := h
      exact ⟨dp, d2, rfl, hu, rfl⟩

/-- The image after the image pass. -/
theorem setImageDefaults_image (x : defaulter) :
    x.setImageDefaults.Defaultable.Spec.Image =
      if x.Defaultable.Spec.UseRedHatImage = true then NexusCertifiedImage
      else if x.Defaultable.Spec.Image = "" then NexusCommunityImage
      else x.Defaultable.Spec.Image := by
  unfold defaulter.setImageDefaults
  simp only [defaulter.withNexus, Nexus.SetImage, Nexus.SetPullPolicy, Nexus.ShouldUseRedHatImage,
    Nexus.Image, Nexus.ImagePullPolicy, beq_iff_eq, string_length_eq_zero_iff]
  split_ifs <;> rfl

/-- The pull policy after the image pass. -/
theorem setImageDefaults_pullPolicy (x : defaulter) :
    x.setImageDefaults.Defaultable.Spec.ImagePullPolicy =
      if x.Defaultable.Spec.ImagePullPolicy = "Always" ∨
          x.Defaultable.Spec.ImagePullPolicy = "IfNotPresent" ∨
          x.Defaultable.Spec.ImagePullPolicy = "Never" then x.Defaultable.Spec.ImagePullPolicy
      else "" := by
  unfold defaulter.setImageDefaults
  simp only [defaulter.withNexus, Nexus.SetImage, Nexus.SetPullPolicy, Nexus.ShouldUseRedHatImage,
    Nexus.Image, Nexus.ImagePullPolicy, PullAlways, PullIfNotPresent, PullNever]
  by_cases h0 : x.Defaultable.Spec.ImagePullPolicy = "" <;>
    by_cases h1 : x.Defaultable.Spec.ImagePullPolicy = "Always" <;>
    by_cases h2 : x.Defaultable.Spec.ImagePullPolicy = "IfNotPresent" <;>
    by_cases h3 : x.Defaultable.Spec.ImagePullPolicy = "Never" <;>
    split_ifs <;> simp_all [string_length_pos_iff]

/-- What the deployment stage leaves alone, and what it makes of the resources, the image
and the pull policy. -/
theorem setDeploymentDefaults_frame (d dp : defaulter) (h : d.setDeploymentDefaults = .ok dp) :
    dp.Defaultable.Name = d.Defaultable.Name ∧
    dp.routeAvailable = d.routeAvailable ∧
    dp.ingressAvailable = d.ingressAvailable ∧
    dp.Defaultable.Spec.UseRedHatImage = d.Defaultable.Spec.UseRedHatImage ∧
    dp.Defaultable.Spec.AutomaticUpdate = d.Defaultable.Spec.AutomaticUpdate ∧
    dp.Defaultable.Spec.Persistence = d.Defaultable.Spec.Persistence ∧
    dp.Defaultable.Spec.Networking = d.Defaultable.Spec.Networking ∧
    dp.Defaultable.Spec.ServiceAccountName = d.Defaultable.Spec.ServiceAccountName ∧
    dp.Defaultable.Spec.Resources = d.setResourcesDefaults.Defaultable.Spec.Resources ∧
    dp.Defaultable.Spec.Image = d.setImageDefaults.Defaultable.Spec.Image ∧
    dp.Defaultable.Spec.ImagePullPolicy = d.setImageDefaults.Defaultable.Spec.ImagePullPolicy := by
  unfold defaulter.setDeploymentDefaults at h
  rw [setProbeDefaults_eq] at h
  cases hp : probesAfterDefaulting
      d.setResourcesDefaults.setImageDefaults.Defaultable.Spec.LivenessProbe
      d.setResourcesDefaults.setImageDefaults.Defaultable.Spec.ReadinessProbe with
  | error e =>
    rw [hp] at h
    cases h
  | ok p =>
    rw [hp] at h
    simp only [Except.map, Except.ok.injEq] at h
    subst h
    simp only [defaulter.withNexus, Nexus.withProbes]
    unfold defaulter.setImageDefaults defaulter.setResourcesDefaults
    simp only [defaulter.withNexus, Nexus.SetResources, Nexus.SetImage, Nexus.SetPullPolicy,
      Nexus.Resources, Nexus.ShouldUseRedHatImage, Nexus.Image, Nexus.ImagePullPolicy]
    refine ⟨?_, ?_, ?_, ?_, ?_, ?_, ?_, ?_, ?_, ?_, ?_⟩ <;> split_ifs <;> rfl

/-- With the minor version set, the tail of the update stage never faults and rewrites
nothing but the image and the automatic update settings. -/
theorem fetchMicro_shape {σ : Type} (fw : Framework σ) (image : String) (x : defaulter)
    (s : σ) (hset : x.Defaultable.IsMinorVersionSet = true) :
    ∃ img dis minor s1, defaulter.setUpdateDefaults.fetchMicro fw image x s =
      .ok (x.withNexus ((x.Defaultable.withImage x.Defaultable.Spec.UseRedHatImage img).withUpdate
        dis minor), s1) := by
  obtain ⟨m, hm⟩ := Option.isSome_iff_exists.mp hset
  unfold defaulter.setUpdateDefaults.fetchMicro
  rcases hmic : fw.GetLatestMicro m s with ⟨⟨tag, ok⟩, s1⟩
  simp only [Nexus.MinorVersion, hm, deref, bind, Except.bind, hmic]
  cases ok
  · rcases hmin : fw.GetLatestMinor s1 with ⟨_ | minor, s2⟩
    · exact ⟨x.Defaultable.Spec.Image, true, x.Defaultable.Spec.AutomaticUpdate.MinorVersion,
        s2, rfl⟩
    · simp only [Bool.not_false, if_true]
      split_ifs
      · exact ⟨image ++ ":" ++ (fw.GetLatestMicro minor s2).1.1,
          x.Defaultable.Spec.AutomaticUpdate.Disabled, some minor, _, rfl⟩
      · exact ⟨x.Defaultable.Spec.Image, x.Defaultable.Spec.AutomaticUpdate.Disabled,
          some minor, _, rfl⟩
  · simp only [Bool.not_true, Bool.false_eq_true, if_false]
    split_ifs
    · exact ⟨image ++ ":" ++ tag, x.Defaultable.Spec.AutomaticUpdate.Disabled,
        x.Defaultable.Spec.AutomaticUpdate.MinorVersion, s1, rfl⟩
    · exact ⟨x.Defaultable.Spec.Image, x.Defaultable.Spec.AutomaticUpdate.Disabled,
        x.Defaultable.Spec.AutomaticUpdate.MinorVersion, s1, rfl⟩

/-- The update stage never faults and rewrites nothing but the image and the automatic
update settings. -/
theorem setUpdateDefaults_shape {σ : Type} (fw : Framework σ) (x : defaulter) (s : σ) :
    ∃ img dis minor s1, x.setUpdateDefaults fw s =
      .ok (x.withNexus ((x.Defaultable.withImage x.Defaultable.Spec.UseRedHatImage img).withUpdate
        dis minor), s1) := by
  unfold defaulter.setUpdateDefaults
  dsimp only
  split_ifs with h1 h2 h3
  · exact ⟨x.Defaultable.Spec.Image, x.Defaultable.Spec.AutomaticUpdate.Disabled,
      x.Defaultable.Spec.AutomaticUpdate.MinorVersion, s, rfl⟩
  · exact ⟨x.Defaultable.Spec.Image, true, x.Defaultable.Spec.AutomaticUpdate.MinorVersion,
      s, rfl⟩
  · rcases fw.GetLatestMinor s with ⟨_ | minor, s1⟩
    · exact ⟨x.Defaultable.Spec.Image, true, x.Defaultable.Spec.AutomaticUpdate.MinorVersion,
        s1, rfl⟩
    · obtain ⟨img, dis, mv, s2, h⟩ := fetchMicro_shape fw (splitHead x.Defaultable.Image)
        (x.withNexus (x.Defaultable.SetMinorVersion minor)) s1 rfl
      exact ⟨img, dis, mv, s2, h⟩
  · exact fetchMicro_shape fw _ x s (by simpa using h3)

/-- What the update stage leaves alone. -/
theorem setUpdateDefaults_frame {σ : Type} (fw : Framework σ) (x y : defaulter) (s s1 : σ)
    (h : x.setUpdateDefaults fw s = .ok (y, s1)) :
    y.Defaultable.Name = x.Defaultable.Name ∧
    y.routeAvailable = x.routeAvailable ∧
    y.ingressAvailable = x.ingressAvailable ∧
    y.Defaultable.Spec.UseRedHatImage = x.Defaultable.Spec.UseRedHatImage ∧
    y.Defaultable.Spec.Resources = x.Defaultable.Spec.Resources ∧
    y.Defaultable.Spec.ImagePullPolicy = x.Defaultable.Spec.ImagePullPolicy ∧
    y.Defaultable.Spec.Persistence = x.Defaultable.Spec.Persistence ∧
    y.Defaultable.Spec.Networking = x.Defaultable.Spec.Networking ∧
    y.Defaultable.Spec.ServiceAccountName = x.Defaultable.Spec.ServiceAccountName := by
  obtain ⟨img, dis, mv, s2, h2⟩ := setUpdateDefaults_shape fw x s
  rw [h2] at h
  simp only [Except.ok.injEq, Prod.mk.injEq] at h
  obtain ⟨rfl, _⟩ := h
  exact ⟨rfl, rfl, rfl, rfl, rfl, rfl, rfl, rfl, rfl⟩

/-- What the networking pass leaves alone. -/
theorem setNetworkingDefaults_frame (x : defaulter) :
    x.setNetworkingDefaults.Defaultable.Name = x.Defaultable.Name ∧
    x.setNetworkingDefaults.Defaultable.Spec.Image = x.Defaultable.Spec.Image ∧
    x.setNetworkingDefaults.Defaultable.Spec.AutomaticUpdate
      = x.Defaultable.Spec.AutomaticUpdate ∧
    x.setNetworkingDefaults.Defaultable.Spec.Resources = x.Defaultable.Spec.Resources ∧
    x.setNetworkingDefaults.Defaultable.Spec.ImagePullPolicy
      = x.Defaultable.Spec.ImagePullPolicy ∧
    x.setNetworkingDefaults.Defaultable.Spec.Persistence = x.Defaultable.Spec.Persistence ∧
    x.setNetworkingDefaults.Defaultable.Spec.ServiceAccountName
      = x.Defaultable.Spec.ServiceAccountName := by
  unfold defaulter.setNetworkingDefaults
  simp only [defaulter.withNexus, Nexus.SetExpose, Nexus.SetExposeAs]
  refine ⟨?_, ?_, ?_, ?_, ?_, ?_, ?_⟩ <;> split_ifs <;> rfl

/-- What the persistence pass leaves alone. -/
theorem setPersistenceDefaults_frame (x : defaulter) :
    x.setPersistenceDefaults.Defaultable.Name = x.Defaultable.Name ∧
    x.setPersistenceDefaults.Defaultable.Spec.Image = x.Defaultable.Spec.Image ∧
    x.setPersistenceDefaults.Defaultable.Spec.AutomaticUpdate
      = x.Defaultable.Spec.AutomaticUpdate ∧
    x.setPersistenceDefaults.Defaultable.Spec.Resources = x.Defaultable.Spec.Resources ∧
    x.setPersistenceDefaults.Defaultable.Spec.ImagePullPolicy
      = x.Defaultable.Spec.ImagePullPolicy ∧
    x.setPersistenceDefaults.Defaultable.Spec.Networking = x.Defaultable.Spec.Networking ∧
    x.setPersistenceDefaults.Defaultable.Spec.ServiceAccountName
      = x.Defaultable.Spec.ServiceAccountName := by
  unfold defaulter.setPersistenceDefaults
  simp only [defaulter.withNexus, Nexus.SetVolumeSize]
  refine ⟨?_, ?_, ?_, ?_, ?_, ?_, ?_⟩ <;> split_ifs <;> rfl

/-- What the security pass leaves alone. -/
theorem setSecurityDefaults_frame (x : defaulter) :
    x.setSecurityDefaults.Defaultable.Name = x.Defaultable.Name ∧
    x.setSecurityDefaults.Defaultable.Spec.Image = x.Defaultable.Spec.Image ∧
    x.setSecurityDefaults.Defaultable.Spec.AutomaticUpdate
      = x.Defaultable.Spec.AutomaticUpdate ∧
    x.setSecurityDefaults.Defaultable.Spec.Resources = x.Defaultable.Spec.Resources ∧
    x.setSecurityDefaults.Defaultable.Spec.ImagePullPolicy
      = x.Defaultable.Spec.ImagePullPolicy ∧
    x.setSecurityDefaults.Defaultable.Spec.Networking = x.Defaultable.Spec.Networking ∧
    x.setSecurityDefaults.Defaultable.Spec.Persistence = x.Defaultable.Spec.Persistence := by
  unfold defaulter.setSecurityDefaults
  simp only [defaulter.withNexus, Nexus.SetServiceAccount]
  refine ⟨?_, ?_, ?_, ?_, ?_, ?_, ?_⟩ <;> split_ifs <;> rfl

/-- The persistence pass reads the persistence settings only. -/
theorem setPersistenceDefaults_congr (x y : defaulter)
    (h : x.Defaultable.Spec.Persistence = y.Defaultable.Spec.Persistence) :
    x.setPersistenceDefaults.Defaultable.Spec.Persistence
      = y.setPersistenceDefaults.Defaultable.Spec.Persistence := by
  unfold defaulter.setPersistenceDefaults
  simp only [defaulter.withNexus, Nexus.SetVolumeSize, Nexus.IsPersistent, Nexus.VolumeSize, h]
  split_ifs <;> simp [h]

/-- The security pass reads the name and the service account only. -/
theorem setSecurityDefaults_congr (x y : defaulter)
    (hn : x.Defaultable.Name = y.Defaultable.Name)
    (h : x.Defaultable.Spec.ServiceAccountName = y.Defaultable.Spec.ServiceAccountName) :
    x.setSecurityDefaults.Defaultable.Spec.ServiceAccountName
      = y.setSecurityDefaults.Defaultable.Spec.ServiceAccountName := by
  unfold defaulter.setSecurityDefaults
  simp only [defaulter.withNexus, Nexus.SetServiceAccount, Nexus.ServiceAccount, Nexus.GetName,
    h, hn]
  split_ifs <;> simp [h, hn]

/-- What the last three passes leave alone, and what each makes of its own fields. -/
theorem lastPasses_frame (x : defaulter) :
    x.setNetworkingDefaults.setPersistenceDefaults.setSecurityDefaults.Defaultable.Spec.Image
      = x.Defaultable.Spec.Image ∧
    x.setNetworkingDefaults.setPersistenceDefaults.setSecurityDefaults.Defaultable.Spec.AutomaticUpdate
      = x.Defaultable.Spec.AutomaticUpdate ∧
    x.setNetworkingDefaults.setPersistenceDefaults.setSecurityDefaults.Defaultable.Spec.Resources
      = x.Defaultable.Spec.Resources ∧
    x.setNetworkingDefaults.setPersistenceDefaults.setSecurityDefaults.Defaultable.Spec.ImagePullPolicy
      = x.Defaultable.Spec.ImagePullPolicy ∧
    x.setNetworkingDefaults.setPersistenceDefaults.setSecurityDefaults.Defaultable.Spec.Networking
      = x.setNetworkingDefaults.Defaultable.Spec.Networking ∧
    x.setNetworkingDefaults.setPersistenceDefaults.setSecurityDefaults.Defaultable.Spec.Persistence
      = x.setPersistenceDefaults.Defaultable.Spec.Persistence ∧
    x.setNetworkingDefaults.setPersistenceDefaults.setSecurityDefaults.Defaultable.Spec.ServiceAccountName
      = x.setSecurityDefaults.Defaultable.Spec.ServiceAccountName := by
  obtain ⟨n1, n2, n3, n4, n5, n6, n7⟩ := setNetworkingDefaults_frame x
  obtain ⟨p1, p2, p3, p4, p5, p6, p7⟩ := setPersistenceDefaults_frame x.setNetworkingDefaults
  obtain ⟨q1, q2, q3, q4, q5, q6, q7⟩ :=
    setSecurityDefaults_frame x.setNetworkingDefaults.setPersistenceDefaults
  refine ⟨q2.trans (p2.trans n2), q3.trans (p3.trans n3), q4.trans (p4.trans n4),
    q5.trans (p5.trans n5), q6.trans p6, ?_, ?_⟩
  · exact q7.trans (setPersistenceDefaults_congr _ _ n6)
  · exact setSecurityDefaults_congr _ _ (p1.trans n1) (p7.trans n7)

/-- The networking pass reads the networking settings and the capability flags only. -/
theorem setNetworkingDefaults_congr (x y : defaulter)
    (h : x.Defaultable.Spec.Networking = y.Defaultable.Spec.Networking)
    (hr : x.routeAvailable = y.routeAvailable) (hi : x.ingressAvailable = y.ingressAvailable) :
    x.setNetworkingDefaults.Defaultable.Spec.Networking
      = y.setNetworkingDefaults.Defaultable.Spec.Networking := by
  unfold defaulter.setNetworkingDefaults
  simp only [defaulter.withNexus, Nexus.SetExpose, Nexus.SetExposeAs, Nexus.IsExposeSet,
    Nexus.ExposeAs, Nexus.ShouldExpose, h, hr, hi]
  split_ifs <;> simp [h]

/-- After a run that completes, the fields owned by one pass are what that pass alone makes
of the input; the image and the automatic update settings are what the update stage makes
of the input after the image pass. -/
theorem setDefaults_ok_fields {σ : Type} (fw : Framework σ) (d d1 : defaulter) (s s1 : σ)
    (h : d.setDefaults fw s = .ok (d1, s1)) :
    d1.Defaultable.Spec.Resources = d.setResourcesDefaults.Defaultable.Spec.Resources ∧
    d1.Defaultable.Spec.ImagePullPolicy = d.setImageDefaults.Defaultable.Spec.ImagePullPolicy ∧
    d1.Defaultable.Spec.Networking = d.setNetworkingDefaults.Defaultable.Spec.Networking ∧
    d1.Defaultable.Spec.Persistence = d.setPersistenceDefaults.Defaultable.Spec.Persistence ∧
    d1.Defaultable.Spec.ServiceAccountName
      = d.setSecurityDefaults.Defaultable.Spec.ServiceAccountName ∧
    ∃ dp d2 : defaulter, dp.setUpdateDefaults fw s = .ok (d2, s1) ∧
      dp.Defaultable.Spec.Image = d.setImageDefaults.Defaultable.Spec.Image ∧
      dp.Defaultable.Spec.AutomaticUpdate = d.Defaultable.Spec.AutomaticUpdate ∧
      d1.Defaultable.Spec.Image = d2.Defaultable.Spec.Image ∧
      d1.Defaultable.Spec.AutomaticUpdate = d2.Defaultable.Spec.AutomaticUpdate := by
  obtain ⟨dp, d2, hdp, hu, rfl⟩ := setDefaults_ok_stages fw d d1 s s1 h
  obtain ⟨a1, a2, a3, a4, a5, a6, a7, a8, a9, a10, a11⟩ := setDeploymentDefaults_frame d dp hdp
  obtain ⟨b1, b2, b3, b4, b5, b6, b7, b8, b9⟩ := setUpdateDefaults_frame fw dp d2 s s1 hu
  obtain ⟨c1, c2, c3, c4, c5, c6, c7⟩ := lastPasses_frame d2
  refine ⟨c3.trans (b5.trans a9), c4.trans (b6.trans a11), ?_, ?_, ?_,
    dp, d2, hu, a10, a5, c1, c2⟩
  · exact c5.trans (setNetworkingDefaults_congr _ _ (b8.trans a7) (b2.trans a2) (b3.trans a3))
  · exact c6.trans (setPersistenceDefaults_congr _ _ (b7.trans a6))
  · exact c7.trans (setSecurityDefaults_congr _ _ (b1.trans a1) (b9.trans a8))

/-! ## Lemmas on the update stage -/

/-- Taking the longest run of a list that satisfies a test stops at the first failure. -/
theorem takeWhile_append_cons {α : Type} (p : α → Bool) (l1 l2 : List α) (a : α)
    (h1 : ∀ b ∈ l1, p b = true) (ha : p a = false) :
    (l1 ++ a :: l2).takeWhile p = l1 := by
  induction l1 with
  | nil => simp [List.takeWhile, ha]
  | cons b l ih =>
    have hb : p b = true := h1 b (List.mem_cons_self b l)
    have hl : ∀ c ∈ l, p c = true := fun c hc => h1 c (List.mem_cons_of_mem b hc)
    simp [List.takeWhile, hb, ih hl]

/-- The repository part of the community image followed by a colon and a tag is the
community image. -/
theorem splitHead_community_tag (tag : String) :
    splitHead (NexusCommunityImage ++ ":" ++ tag) = NexusCommunityImage := by
  unfold splitHead
  have h : (NexusCommunityImage ++ ":" ++ tag).data
      = NexusCommunityImage.data ++ ':' :: tag.data := by
    simp [String.data_append]
  rw [h, takeWhile_append_cons _ _ _ _ (by decide) (by decide)]

/-- The repository part of the community image is itself. -/
theorem splitHead_community : splitHead NexusCommunityImage = NexusCommunityImage := by
  decide

/-- A disabled update stage changes nothing and asks nothing. -/
theorem setUpdateDefaults_disabled {σ : Type} (fw : Framework σ) (x : defaulter) (s : σ)
    (hdis : x.Defaultable.Spec.AutomaticUpdate.Disabled = true) :
    x.setUpdateDefaults fw s = .ok (x, s) := by
  unfold defaulter.setUpdateDefaults
  simp [Nexus.IsUpdateDisabled, hdis]

/-- With another image than the community image the update stage switches itself off and
asks nothing. -/
theorem setUpdateDefaults_other_image {σ : Type} (fw : Framework σ) (x : defaulter) (s : σ)
    (hdis : x.Defaultable.Spec.AutomaticUpdate.Disabled = false)
    (himg : splitHead x.Defaultable.Spec.Image ≠ NexusCommunityImage) :
    x.setUpdateDefaults fw s = .ok (x.withNexus x.Defaultable.DisableUpdate, s) := by
  unfold defaulter.setUpdateDefaults
  simp [Nexus.IsUpdateDisabled, Nexus.Image, hdis, himg]

/-- The last step of the update stage: the image ends as the composed one. -/
theorem fetchMicro_found {σ : Type} (fw : Framework σ) (image : String) (x : defaulter)
    (s s1 : σ) (p : Int) (t : String)
    (hm : x.Defaultable.Spec.AutomaticUpdate.MinorVersion = some p)
    (hmic : fw.GetLatestMicro p s = ((t, true), s1)) :
    ∃ y, defaulter.setUpdateDefaults.fetchMicro fw image x s = .ok (y, s1) ∧
      y.Defaultable.Spec.Image = image ++ ":" ++ t ∧
      y.Defaultable.Spec.AutomaticUpdate = x.Defaultable.Spec.AutomaticUpdate := by
  unfold defaulter.setUpdateDefaults.fetchMicro
  simp only [Nexus.MinorVersion, hm, deref, bind, Except.bind, hmic, Bool.not_true,
    Bool.false_eq_true, if_false]
  split_ifs with h
  · exact ⟨_, rfl, rfl, rfl⟩
  · refine ⟨_, rfl, ?_, rfl⟩
    simp only [bne_iff_ne, ne_eq, not_not, Nexus.Image] at h
    exact h.symm

/-- The fallback of the update stage: the pinned minor is not found, the latest minor is
taken and the image is composed with the tag of the second micro lookup. -/
theorem fetchMicro_fallback {σ : Type} (fw : Framework σ) (image : String) (x : defaulter)
    (s s1 s2 s3 : σ) (p m : Int) (t0 t : String) (b : Bool)
    (hm : x.Defaultable.Spec.AutomaticUpdate.MinorVersion = some p)
    (hmic : fw.GetLatestMicro p s = ((t0, false), s1))
    (hmin : fw.GetLatestMinor s1 = (.ok m, s2))
    (hmic2 : fw.GetLatestMicro m s2 = ((t, b), s3)) :
    ∃ y, defaulter.setUpdateDefaults.fetchMicro fw image x s = .ok (y, s3) ∧
      y.Defaultable.Spec.Image = image ++ ":" ++ t ∧
      y.Defaultable.Spec.AutomaticUpdate.MinorVersion = some m ∧
      y.Defaultable.Spec.AutomaticUpdate.Disabled
        = x.Defaultable.Spec.AutomaticUpdate.Disabled := by
  unfold defaulter.setUpdateDefaults.fetchMicro
  simp only [Nexus.MinorVersion, hm, deref, bind, Except.bind, hmic, hmin, hmic2,
    Bool.not_false, if_true]
  split_ifs with h
  · exact ⟨_, rfl, rfl, rfl, rfl⟩
  · refine ⟨_, rfl, ?_, rfl, rfl⟩
    simp only [bne_iff_ne, ne_eq, not_not, Nexus.Image] at h
    exact h.symm

/-- With the update enabled, the community image and a pinned minor, the update stage is its
tail. -/
theorem setUpdateDefaults_pinned {σ : Type} (fw : Framework σ) (x : defaulter) (s : σ) (p : Int)
    (hdis : x.Defaultable.Spec.AutomaticUpdate.Disabled = false)
    (himg : splitHead x.Defaultable.Spec.Image = NexusCommunityImage)
    (hm : x.Defaultable.Spec.AutomaticUpdate.MinorVersion = some p) :
    x.setUpdateDefaults fw s
      = defaulter.setUpdateDefaults.fetchMicro fw NexusCommunityImage x s := by
  unfold defaulter.setUpdateDefaults
  simp [Nexus.IsUpdateDisabled, Nexus.Image, Nexus.IsMinorVersionSet, hdis, himg, hm]

/-- With the update enabled, the community image and no minor, the update stage asks for the
latest minor, stores it and goes on with its tail. -/
theorem setUpdateDefaults_unset {σ : Type} (fw : Framework σ) (x : defaulter) (s s1 : σ)
    (m : Int)
    (hdis : x.Defaultable.Spec.AutomaticUpdate.Disabled = false)
    (himg : splitHead x.Defaultable.Spec.Image = NexusCommunityImage)
    (hm : x.Defaultable.Spec.AutomaticUpdate.MinorVersion = none)
    (hmin : fw.GetLatestMinor s = (.ok m, s1)) :
    x.setUpdateDefaults fw s
      = defaulter.setUpdateDefaults.fetchMicro fw NexusCommunityImage
          (x.withNexus (x.Defaultable.SetMinorVersion m)) s1 := by
  unfold defaulter.setUpdateDefaults
  simp [Nexus.IsUpdateDisabled, Nexus.Image, Nexus.IsMinorVersionSet, hdis, himg, hm, hmin]

/-- The image after the tail of the update stage is the one before it or a composed one. -/
theorem fetchMicro_image {σ : Type} (fw : Framework σ) (image : String) (x : defaulter)
    (s : σ) (hset : x.Defaultable.IsMinorVersionSet = true) :
    ∃ y s1, defaulter.setUpdateDefaults.fetchMicro fw image x s = .ok (y, s1) ∧
      (y.Defaultable.Spec.Image = x.Defaultable.Spec.Image ∨
        ∃ tag, y.Defaultable.Spec.Image = image ++ ":" ++ tag) := by
  obtain ⟨p, hp⟩ := Option.isSome_iff_exists.mp hset
  rcases hmic : fw.GetLatestMicro p s with ⟨⟨t, ok⟩, s1⟩
  cases ok
  · rcases hmin : fw.GetLatestMinor s1 with ⟨_ | m, s2⟩
    · refine ⟨x.handleTagFetchError, s2, ?_, Or.inl rfl⟩
      unfold defaulter.setUpdateDefaults.fetchMicro
      simp [Nexus.MinorVersion, hp, deref, bind, Except.bind, hmic, hmin]
    · rcases hmic2 : fw.GetLatestMicro m s2 with ⟨⟨t2, b⟩, s3⟩
      obtain ⟨y, hy, hi, _⟩ := fetchMicro_fallback fw image x s s1 s2 s3 p m t t2 b hp hmic
        hmin hmic2
      exact ⟨y, s3, hy, Or.inr ⟨t2, hi⟩⟩
  · obtain ⟨y, hy, hi, _⟩ := fetchMicro_found fw image x s s1 p t hp hmic
    exact ⟨y, s1, hy, Or.inr ⟨t, hi⟩⟩

/-- The image after the update stage: untouched when the update is disabled, and in every
case the one before or the repository part followed by a colon and a tag. -/
theorem setUpdateDefaults_image {σ : Type} (fw : Framework σ) (x y : defaulter) (s s1 : σ)
    (h : x.setUpdateDefaults fw s = .ok (y, s1)) :
    (x.Defaultable.Spec.AutomaticUpdate.Disabled = true →
      y.Defaultable.Spec.Image = x.Defaultable.Spec.Image) ∧
    (y.Defaultable.Spec.Image = x.Defaultable.Spec.Image ∨
      ∃ tag, y.Defaultable.Spec.Image = splitHead x.Defaultable.Spec.Image ++ ":" ++ tag) := by
  by_cases hdis : x.Defaultable.Spec.AutomaticUpdate.Disabled = true
  · rw [setUpdateDefaults_disabled fw x s hdis] at h
    simp only [Except.ok.injEq, Prod.mk.injEq] at h
    obtain ⟨rfl, _⟩ := h
    exact ⟨fun _ => rfl, Or.inl rfl⟩
  · have hdis2 : x.Defaultable.Spec.AutomaticUpdate.Disabled = false := by simpa using hdis
    refine ⟨fun hd => absurd hd hdis, ?_⟩
    by_cases himg : splitHead x.Defaultable.Spec.Image = NexusCommunityImage
    · rcases hm : x.Defaultable.Spec.AutomaticUpdate.MinorVersion with _ | p
      · rcases hmin : fw.GetLatestMinor s with ⟨_ | m, s2⟩
        · unfold defaulter.setUpdateDefaults at h
          simp [Nexus.IsUpdateDisabled, Nexus.Image, Nexus.IsMinorVersionSet, hdis2, himg, hm,
            hmin] at h
          obtain ⟨rfl, _⟩ := h
          exact Or.inl rfl
        · rw [setUpdateDefaults_unset fw x s s2 m hdis2 himg hm hmin] at h
          obtain ⟨y2, s3, h2, hi⟩ := fetchMicro_image fw NexusCommunityImage
            (x.withNexus (x.Defaultable.SetMinorVersion m)) s2 rfl
          rw [h2] at h
          simp only [Except.ok.injEq, Prod.mk.injEq] at h
          obtain ⟨rfl, _⟩ := h
          rw [himg]
          exact hi
      · rw [setUpdateDefaults_pinned fw x s p hdis2 himg hm] at h
        obtain ⟨y2, s3, h2, hi⟩ := fetchMicro_image fw NexusCommunityImage x s
          (by simp [Nexus.IsMinorVersionSet, hm])
        rw [h2] at h
        simp only [Except.ok.injEq, Prod.mk.injEq] at h
        obtain ⟨rfl, _⟩ := h
        rw [himg]
        exact hi
    · rw [setUpdateDefaults_other_image fw x s hdis2 himg] at h
      simp only [Except.ok.injEq, Prod.mk.injEq] at h
      obtain ⟨rfl, _⟩ := h
      exact Or.inl rfl

/-! ## Validation: rejection and its reason -/

/-- C1: `validate` rejects exactly when `expose` is true and one of the six rule conditions
holds for the configuration and the capability snapshot; when `expose` is false or unset it
accepts. -/
theorem validate_rejects_iff_rule_violated (v : validator) :
    (v.validate ≠ none ↔
      v.Validatable.Spec.Networking.Expose = some true ∧
        ((v.Validatable.Spec.Networking.ExposeAs = "Ingress" ∧ v.ingressAvailable = false) ∨
         (v.Validatable.Spec.Networking.ExposeAs = "Route" ∧ v.routeAvailable = false) ∨
         (v.Validatable.Spec.Networking.ExposeAs = "NodePort" ∧
            v.Validatable.Spec.Networking.NodePort = 0) ∨
         (v.Validatable.Spec.Networking.ExposeAs = "Ingress" ∧
            v.Validatable.Spec.Networking.Host = "") ∨
         (v.Validatable.Spec.Networking.TLS.SecretName ≠ "" ∧
            v.Validatable.Spec.Networking.ExposeAs ≠ "Ingress") ∨
         (v.Validatable.Spec.Networking.TLS.Mandatory = true ∧
            v.Validatable.Spec.Networking.ExposeAs ≠ "Route"))) ∧
    (v.Validatable.Spec.Networking.Expose ≠ some true → v.validate = none) := by
  rcases v with ⟨⟨name, spec⟩, route, ingress⟩
  rcases spec with ⟨_, _, _, _, _, _, _, _, _, _, _, net⟩
  rcases net with ⟨expose, exposeAs, host, port, ⟨mand, secret⟩⟩
  simp only [validator.validate, validator.validateNetworking, Nexus.ShouldExpose,
    Nexus.IsExposingAs, Nexus.NodePort, Nexus.Host, Nexus.SecretName, Nexus.IsTLSMandatory,
    ingressExposeType, routeExposeType, nodePortExposeType]
  rcases expose with _ | _ | _
  · simp
  · simp
  · cases route <;> cases ingress <;> cases mand <;>
      by_cases h1 : exposeAs = "Ingress" <;> by_cases h2 : exposeAs = "Route" <;>
      by_cases h3 : exposeAs = "NodePort" <;> by_cases h4 : port = 0 <;>
      by_cases h5 : host = "" <;> by_cases h6 : secret = "" <;>
      simp_all [string_length_eq_zero_iff, string_length_pos_iff]

/-- C2: whenever `validate` rejects, the message it returns is that of the first rule, in the
order ingress-unavailable, route-unavailable, nodeport-missing-port, ingress-missing-host,
secret-name-requires-ingress, mandatory-tls-requires-route, whose condition holds. -/
theorem validate_reason_is_first_violated_rule (v : validator) (msg : String)
    (h : v.validate = some msg) :
    ∃ r, firstViolatedRule v = some r ∧ r.holds v ∧ r.message = msg := by
  rw [validate_eq_firstViolatedRule] at h
  split_ifs at h
  cases hr : firstViolatedRule v with
  | none => simp [hr] at h
  | some r =>
    refine ⟨r, rfl, ?_, by simpa [hr] using h⟩
    have := List.find?_some hr
    simpa using this

/-- C2, witness: Ingress requested, ingress unavailable and an empty host: the reason is
ingress-unavailable, not ingress-missing-host. -/
theorem validate_reason_is_first_violated_rule_witness :
    validator.validate ⟨ingressWithoutHost, true, false⟩
        = some "ingress expose required, but unavailable" ∧
      Reason.holds ⟨ingressWithoutHost, true, false⟩ .ingressMissingHost ∧
      ∃ r, firstViolatedRule ⟨ingressWithoutHost, true, false⟩ = some r ∧
        r.holds ⟨ingressWithoutHost, true, false⟩ ∧
        r.message = "ingress expose required, but unavailable" :=
  ⟨by decide, by decide,
    validate_reason_is_first_violated_rule ⟨ingressWithoutHost, true, false⟩ _ (by decide)⟩

/-! ## Defaulting of the probes -/

/-- C3: defaulting does not always run to completion. On a resource whose liveness probe is
set and whose readiness probe is unset, the first `SetProbeValue` of the probe pass
dereferences the nil readiness probe: both `setDefaults` and `SetDefaults` end in the fault. -/
theorem setDefaults_faults_with_liveness_only :
    defaulter.setDefaults offlineFramework
        (plainDefaulter (AllDefaultsCommunityNexus.withProbes (some DefaultProbe) none)) ()
      = .error Fault.nilPointerDereference ∧
    SetDefaults ⟨(false, none), (false, none), (false, none)⟩ offlineFramework
        (AllDefaultsCommunityNexus.withProbes (some DefaultProbe) none) ()
      = .error Fault.nilPointerDereference :=
  ⟨rfl, rfl⟩

/-- C4: defaulting is not idempotent. With the liveness probe unset and a readiness probe of
its own, the first run keeps the readiness probe and installs the default liveness probe; the
second run copies the liveness values over the readiness probe. -/
theorem setDefaults_twice_differs :
    ∃ d1 d2,
      defaulter.setDefaults offlineFramework
          (plainDefaulter (AllDefaultsCommunityNexus.withProbes none (some ⟨30, 5, 5, 1, 5⟩))) ()
        = .ok (d1, ()) ∧
      defaulter.setDefaults offlineFramework d1 () = .ok (d2, ()) ∧
      d1.Defaultable.Spec.ReadinessProbe = some ⟨30, 5, 5, 1, 5⟩ ∧
      d2.Defaultable.Spec.ReadinessProbe = some ⟨240, 15, 10, 1, 3⟩ ∧
      d1 ≠ d2 :=
  ⟨_, _, rfl, rfl, rfl, rfl, by decide⟩

/-- C5: the floor step is not per probe. With both probes set, the readiness probe ends with
the floored values of the liveness probe, not with its own: here its `failureThreshold` 2
becomes 10. -/
theorem setDefaults_readiness_takes_liveness_values :
    ∃ d1,
      defaulter.setDefaults offlineFramework
          (plainDefaulter (AllDefaultsCommunityNexus.withProbes
            (some ⟨10, 10, 10, 1, 10⟩) (some ⟨20, 2, 2, 1, 2⟩))) ()
        = .ok (d1, ()) ∧
      d1.Defaultable.Spec.LivenessProbe = some ⟨10, 10, 10, 1, 10⟩ ∧
      d1.Defaultable.Spec.ReadinessProbe = some ⟨10, 10, 10, 1, 10⟩ :=
  ⟨_, rfl, rfl, rfl⟩

/-- C6: after a run of defaulting the liveness probe is present and its `successThreshold`
is 1, whatever the input. -/
theorem setDefaults_liveness_successThreshold {σ : Type} (fw : Framework σ)
    (d d1 : defaulter) (s s1 : σ) (h : d.setDefaults fw s = .ok (d1, s1)) :
    ∃ l, d1.Defaultable.Spec.LivenessProbe = some l ∧ l.SuccessThreshold = 1 := by
  obtain ⟨l, r, hp, hl, _⟩ := setDefaults_ok_probes fw d d1 s s1 h
  exact ⟨l, hl, (probesAfterDefaulting_bounds _ _ l r hp).1⟩

/-- C6, witness: the liveness probe of the default resource with `successThreshold` 2. -/
theorem setDefaults_liveness_successThreshold_witness :
    ∃ d1,
      defaulter.setDefaults offlineFramework
          (plainDefaulter (AllDefaultsCommunityNexus.withProbes
            (some { DefaultProbe with SuccessThreshold := 2 }) (some DefaultProbe))) ()
        = .ok (d1, ()) ∧
      ∃ l, d1.Defaultable.Spec.LivenessProbe = some l ∧ l.SuccessThreshold = 1 := by
  refine ⟨_, rfl, ?_⟩
  exact setDefaults_liveness_successThreshold offlineFramework
    (plainDefaulter (AllDefaultsCommunityNexus.withProbes
      (some { DefaultProbe with SuccessThreshold := 2 }) (some DefaultProbe))) _ () () rfl

/-- C7: after a run of defaulting both probes are present and each of the five tunables of
both is at least 1. -/
theorem setDefaults_probe_tunables_at_least_one {σ : Type} (fw : Framework σ)
    (d d1 : defaulter) (s s1 : σ) (h : d.setDefaults fw s = .ok (d1, s1)) :
    ∃ l r, d1.Defaultable.Spec.LivenessProbe = some l ∧
      d1.Defaultable.Spec.ReadinessProbe = some r ∧
      (1 ≤ l.InitialDelaySeconds ∧ 1 ≤ l.TimeoutSeconds ∧ 1 ≤ l.PeriodSeconds ∧
        1 ≤ l.SuccessThreshold ∧ 1 ≤ l.FailureThreshold) ∧
      (1 ≤ r.InitialDelaySeconds ∧ 1 ≤ r.TimeoutSeconds ∧ 1 ≤ r.PeriodSeconds ∧
        1 ≤ r.SuccessThreshold ∧ 1 ≤ r.FailureThreshold) := by
  obtain ⟨l, r, hp, hl, hr⟩ := setDefaults_ok_probes fw d d1 s s1 h
  exact ⟨l, r, hl, hr, (probesAfterDefaulting_bounds _ _ l r hp).2⟩

/-- C7, witness: two probes with tunables at and below zero. -/
theorem setDefaults_probe_tunables_at_least_one_witness :
    ∃ d1,
      defaulter.setDefaults offlineFramework
          (plainDefaulter (AllDefaultsCommunityNexus.withProbes
            (some ⟨0, -3, 0, 7, 0⟩) (some ⟨-1, 0, 0, -5, 0⟩))) ()
        = .ok (d1, ()) ∧
      ∃ l r, d1.Defaultable.Spec.LivenessProbe = some l ∧
        d1.Defaultable.Spec.ReadinessProbe = some r ∧
        (1 ≤ l.InitialDelaySeconds ∧ 1 ≤ l.TimeoutSeconds ∧ 1 ≤ l.PeriodSeconds ∧
          1 ≤ l.SuccessThreshold ∧ 1 ≤ l.FailureThreshold) ∧
        (1 ≤ r.InitialDelaySeconds ∧ 1 ≤ r.TimeoutSeconds ∧ 1 ≤ r.PeriodSeconds ∧
          1 ≤ r.SuccessThreshold ∧ 1 ≤ r.FailureThreshold) := by
  refine ⟨_, rfl, ?_⟩
  exact setDefaults_probe_tunables_at_least_one offlineFramework
    (plainDefaulter (AllDefaultsCommunityNexus.withProbes
      (some ⟨0, -3, 0, 7, 0⟩) (some ⟨-1, 0, 0, -5, 0⟩))) _ () () rfl

/-- C8: an unset readiness probe is not replaced by the default probe when the liveness probe
is set: the run faults before it reaches the readiness branch. The mirrored input (liveness
unset, readiness set) completes and installs the default liveness probe. -/
theorem setDefaults_unset_readiness_with_liveness_set :
    defaulter.setDefaults offlineFramework
        (plainDefaulter (AllDefaultsCommunityNexus.withProbes (some ⟨30, 5, 5, 1, 5⟩) none)) ()
      = .error Fault.nilPointerDereference ∧
    ∃ d1,
      defaulter.setDefaults offlineFramework
          (plainDefaulter (AllDefaultsCommunityNexus.withProbes none (some ⟨30, 5, 5, 1, 5⟩))) ()
        = .ok (d1, ()) ∧
      d1.Defaultable.Spec.LivenessProbe = some DefaultProbe :=
  ⟨rfl, _, rfl, rfl⟩

/-- C9: the minimum enforced for `initialDelaySeconds` is 1, not 0: two probes with every
tunable at -1 both end as the probe with every tunable at 1. -/
theorem setDefaults_raises_initialDelaySeconds_to_one :
    ∃ d1,
      defaulter.setDefaults offlineFramework
          (plainDefaulter (AllDefaultsCommunityNexus.withProbes
            (some ⟨-1, -1, -1, -1, -1⟩) (some ⟨-1, -1, -1, -1, -1⟩))) ()
        = .ok (d1, ()) ∧
      d1.Defaultable.Spec.LivenessProbe = some
        { InitialDelaySeconds := 1, TimeoutSeconds := 1, PeriodSeconds := 1,
          SuccessThreshold := 1, FailureThreshold := 1 } ∧
      d1.Defaultable.Spec.ReadinessProbe = some
        { InitialDelaySeconds := 1, TimeoutSeconds := 1, PeriodSeconds := 1,
          SuccessThreshold := 1, FailureThreshold := 1 } :=
  ⟨_, rfl, rfl, rfl⟩

/-- C10, counterexample: a readiness probe set with `successThreshold` -1 (liveness probe
unset) ends with `successThreshold` 1, which is not its input value. -/
theorem setDefaults_changes_readiness_successThreshold :
    ∃ d1 r1,
      defaulter.setDefaults offlineFramework
          (plainDefaulter (AllDefaultsCommunityNexus.withProbes none
            (some { DefaultProbe with SuccessThreshold := -1 }))) ()
        = .ok (d1, ()) ∧
      d1.Defaultable.Spec.ReadinessProbe = some r1 ∧
      r1.SuccessThreshold = 1 ∧
      r1.SuccessThreshold ≠ ({ DefaultProbe with SuccessThreshold := -1 }).SuccessThreshold :=
  ⟨_, _, rfl, rfl, rfl, by decide⟩

/-- C10, amended: when the readiness probe is set and the liveness probe is unset or has
`successThreshold` 1, defaulting completes and the readiness `successThreshold` becomes the
maximum of its input value and 1. -/
theorem setDefaults_readiness_successThreshold_floored {σ : Type} (fw : Framework σ)
    (d : defaulter) (s : σ) (r : NexusProbe)
    (hr : d.Defaultable.Spec.ReadinessProbe = some r)
    (hl : ∀ l, d.Defaultable.Spec.LivenessProbe = some l → l.SuccessThreshold = 1) :
    ∃ d1 s1, d.setDefaults fw s = .ok (d1, s1) ∧
      ∃ r1, d1.Defaultable.Spec.ReadinessProbe = some r1 ∧
        r1.SuccessThreshold = max r.SuccessThreshold 1 := by
  rcases hL : d.Defaultable.Spec.LivenessProbe with _ | l
  · obtain ⟨d1, s1, h1, _, h1r⟩ := (setDefaults_probes fw d s).2 _ _
      (by rw [hL, hr]; rfl)
    exact ⟨d1, s1, h1, _, h1r, rfl⟩
  · obtain ⟨d1, s1, h1, _, h1r⟩ := (setDefaults_probes fw d s).2 _ _
      (by rw [hL, hr]; rfl)
    exact ⟨d1, s1, h1, _, h1r, by simp [hl l hL]⟩

/-- C10, witness: the default liveness probe and a readiness probe with `successThreshold`
4, which is kept. -/
theorem setDefaults_readiness_successThreshold_floored_witness :
    ∃ d1 s1,
      defaulter.setDefaults offlineFramework
          (plainDefaulter (AllDefaultsCommunityNexus.withProbes (some DefaultProbe)
            (some { DefaultProbe with SuccessThreshold := 4 }))) ()
        = .ok (d1, s1) ∧
      ∃ r1, d1.Defaultable.Spec.ReadinessProbe = some r1 ∧ r1.SuccessThreshold = 4 :=
  setDefaults_readiness_successThreshold_floored offlineFramework
    (plainDefaulter (AllDefaultsCommunityNexus.withProbes (some DefaultProbe)
      (some { DefaultProbe with SuccessThreshold := 4 }))) ()
    { DefaultProbe with SuccessThreshold := 4 } rfl
    (by intro l hl; cases hl; rfl)

/-! ## Lemmas on the image pass -/

/-- With `useRedHatImage` false and the image unset or on the community repository, the
image after the image pass is on the community repository. -/
theorem setImageDefaults_community (d : defaulter)
    (hrh : d.Defaultable.Spec.UseRedHatImage = false)
    (himg : d.Defaultable.Spec.Image = "" ∨
      splitHead d.Defaultable.Spec.Image = NexusCommunityImage) :
    splitHead d.setImageDefaults.Defaultable.Spec.Image = NexusCommunityImage := by
  rw [setImageDefaults_image, hrh]
  by_cases h0 : d.Defaultable.Spec.Image = ""
  · simp [h0, splitHead_community]
  · rcases himg with h | h
    · exact absurd h h0
    · simpa [h0] using h

/-! ## Defaulting of the image, the resources and the pull policy -/

/-- C11, counterexample: image unset, `useRedHatImage` false, automatic update enabled and a
registry that answers: the image after defaulting carries a tag, so it is not the community
image string. -/
theorem setDefaults_unset_image_gets_tag :
    ∃ d1,
      defaulter.setDefaults registryFramework
          (plainDefaulter (AllDefaultsCommunityNexus.withImage false "")) ()
        = .ok (d1, ()) ∧
      d1.Defaultable.Spec.Image = "docker.io/sonatype/nexus3:3.29.2" ∧
      d1.Defaultable.Spec.Image ≠ NexusCommunityImage :=
  ⟨_, rfl, rfl, by decide⟩

/-- C11, amended: with the image unset and `useRedHatImage` false, the image after
defaulting is the community image when automatic update is disabled, and in every case is
the community image or the community image followed by a colon and a tag. -/
theorem setDefaults_unset_image {σ : Type} (fw : Framework σ) (d d1 : defaulter) (s s1 : σ)
    (h : d.setDefaults fw s = .ok (d1, s1))
    (hrh : d.Defaultable.Spec.UseRedHatImage = false)
    (himg : d.Defaultable.Spec.Image = "") :
    (d.Defaultable.Spec.AutomaticUpdate.Disabled = true →
      d1.Defaultable.Spec.Image = NexusCommunityImage) ∧
    (d1.Defaultable.Spec.Image = NexusCommunityImage ∨
      ∃ tag, d1.Defaultable.Spec.Image = NexusCommunityImage ++ ":" ++ tag) := by
  obtain ⟨_, _, _, _, _, dp, d2, hu, hi, hau, h1i, _⟩ := setDefaults_ok_fields fw d d1 s s1 h
  have hdp : dp.Defaultable.Spec.Image = NexusCommunityImage := by
    rw [hi, setImageDefaults_image, hrh, himg]
    simp
  obtain ⟨hA, hB⟩ := setUpdateDefaults_image fw dp d2 s s1 hu
  rw [hdp, splitHead_community, hau] at *
  rw [h1i]
  exact ⟨hA, hB⟩

/-- C11, witness: the default resource with the image unset and automatic update disabled. -/
theorem setDefaults_unset_image_witness :
    ∃ d1,
      defaulter.setDefaults registryFramework
          (plainDefaulter ((AllDefaultsCommunityNexus.withImage false "").withUpdate true none)) ()
        = .ok (d1, ()) ∧
      d1.Defaultable.Spec.Image = NexusCommunityImage := by
  refine ⟨_, rfl, ?_⟩
  exact (setDefaults_unset_image registryFramework
    (plainDefaulter ((AllDefaultsCommunityNexus.withImage false "").withUpdate true none))
    _ () () rfl rfl rfl).1 rfl

/-- C12: with `useRedHatImage` true the image after a run of defaulting is the certified
image, whatever the image given, the automatic update settings and the resolver. -/
theorem setDefaults_certified_image {σ : Type} (fw : Framework σ) (d d1 : defaulter)
    (s s1 : σ) (h : d.setDefaults fw s = .ok (d1, s1))
    (hrh : d.Defaultable.Spec.UseRedHatImage = true) :
    d1.Defaultable.Spec.Image = NexusCertifiedImage := by
  obtain ⟨_, _, _, _, _, dp, d2, hu, hi, hau, h1i, _⟩ := setDefaults_ok_fields fw d d1 s s1 h
  have hdp : dp.Defaultable.Spec.Image = NexusCertifiedImage := by
    rw [hi, setImageDefaults_image, hrh]
    simp
  rw [h1i]
  by_cases hdis : dp.Defaultable.Spec.AutomaticUpdate.Disabled = true
  · rw [setUpdateDefaults_disabled fw dp s hdis] at hu
    simp only [Except.ok.injEq, Prod.mk.injEq] at hu
    rw [← hu.1, hdp]
  · rw [setUpdateDefaults_other_image fw dp s (by simpa using hdis)
      (by rw [hdp]; decide)] at hu
    simp only [Except.ok.injEq, Prod.mk.injEq] at hu
    rw [← hu.1]
    exact hdp

/-- C12, witness: `useRedHatImage` true with the image `some-image`, automatic update
enabled and a registry that answers. -/
theorem setDefaults_certified_image_witness :
    ∃ d1,
      defaulter.setDefaults registryFramework
          (plainDefaulter (AllDefaultsCommunityNexus.withImage true "some-image")) ()
        = .ok (d1, ()) ∧
      d1.Defaultable.Spec.Image
        = "registry.connect.redhat.com/sonatype/validatable-repository-manager" := by
  refine ⟨_, rfl, ?_⟩
  exact setDefaults_certified_image registryFramework
    (plainDefaulter (AllDefaultsCommunityNexus.withImage true "some-image")) _ () () rfl rfl

/-- The resources after the resources pass. -/
theorem setResourcesDefaults_resources (x : defaulter) :
    x.setResourcesDefaults.Defaultable.Spec.Resources =
      if x.Defaultable.Spec.Resources.Requests = none ∧
          x.Defaultable.Spec.Resources.Limits = none then DefaultResources
      else x.Defaultable.Spec.Resources := by
  unfold defaulter.setResourcesDefaults
  simp only [defaulter.withNexus, Nexus.SetResources, Nexus.Resources]
  rcases hr : x.Defaultable.Spec.Resources.Requests with _ | r <;>
    rcases hl : x.Defaultable.Spec.Resources.Limits with _ | l <;> simp

/-- The exposure settings after the networking pass. -/
theorem setNetworkingDefaults_expose (x : defaulter) :
    x.setNetworkingDefaults.Defaultable.Spec.Networking.Expose =
      (match x.Defaultable.Spec.Networking.Expose with
        | none => some (decide (x.Defaultable.Spec.Networking.ExposeAs ≠ ""))
        | some b => some b) ∧
    x.setNetworkingDefaults.Defaultable.Spec.Networking.ExposeAs =
      (if x.Defaultable.Spec.Networking.Expose = some true ∧
          x.Defaultable.Spec.Networking.ExposeAs = "" then
        (if x.routeAvailable = true then "Route"
          else if x.ingressAvailable = true then "Ingress" else "NodePort")
      else x.Defaultable.Spec.Networking.ExposeAs) := by
  unfold defaulter.setNetworkingDefaults
  simp only [defaulter.withNexus, Nexus.SetExpose, Nexus.SetExposeAs, Nexus.IsExposeSet,
    Nexus.ExposeAs, Nexus.ShouldExpose, routeExposeType, ingressExposeType, nodePortExposeType]
  rcases he : x.Defaultable.Spec.Networking.Expose with _ | _ | _ <;>
    by_cases ha : x.Defaultable.Spec.Networking.ExposeAs = "" <;>
    cases hr : x.routeAvailable <;> cases hi : x.ingressAvailable <;>
    simp [he, ha, hr, hi, string_length_eq_zero_iff]

/-- C13: after a run of defaulting, resources with neither limits nor requests have become
the default pair, and resources with at least one of the two are as given. -/
theorem setDefaults_resources {σ : Type} (fw : Framework σ) (d d1 : defaulter) (s s1 : σ)
    (h : d.setDefaults fw s = .ok (d1, s1)) :
    (d.Defaultable.Spec.Resources.Limits = none ∧
        d.Defaultable.Spec.Resources.Requests = none →
      d1.Defaultable.Spec.Resources =
        { Limits := some [("cpu", "2"), ("memory", "2Gi")]
          Requests := some [("cpu", "1"), ("memory", "2Gi")] }) ∧
    (¬ (d.Defaultable.Spec.Resources.Limits = none ∧
        d.Defaultable.Spec.Resources.Requests = none) →
      d1.Defaultable.Spec.Resources = d.Defaultable.Spec.Resources) := by
  obtain ⟨hres, _⟩ := setDefaults_ok_fields fw d d1 s s1 h
  rw [hres, setResourcesDefaults_resources]
  constructor
  · rintro ⟨hl, hr⟩
    simp [hl, hr, DefaultResources]
  · intro hn
    rw [if_neg]
    exact fun hc => hn ⟨hc.2, hc.1⟩

/-- C13, witness: the default resource with its resources removed, and the same resource
with only the limits given. -/
theorem setDefaults_resources_witness :
    (∃ d1,
      defaulter.setDefaults offlineFramework
          (plainDefaulter (AllDefaultsCommunityNexus.SetResources ⟨none, none⟩)) ()
        = .ok (d1, ()) ∧
      d1.Defaultable.Spec.Resources = DefaultResources) ∧
    (∃ d1,
      defaulter.setDefaults offlineFramework
          (plainDefaulter (AllDefaultsCommunityNexus.SetResources ⟨some [("cpu", "4")], none⟩)) ()
        = .ok (d1, ()) ∧
      d1.Defaultable.Spec.Resources = ⟨some [("cpu", "4")], none⟩) := by
  constructor
  · refine ⟨_, rfl, ?_⟩
    exact (setDefaults_resources offlineFramework
      (plainDefaulter (AllDefaultsCommunityNexus.SetResources ⟨none, none⟩)) _ () () rfl).1
      ⟨rfl, rfl⟩
  · refine ⟨_, rfl, ?_⟩
    exact (setDefaults_resources offlineFramework
      (plainDefaulter (AllDefaultsCommunityNexus.SetResources ⟨some [("cpu", "4")], none⟩))
      _ () () rfl).2 (by decide)

/-- C14: after a run of defaulting the pull policy is empty or one of `Always`,
`IfNotPresent`, `Never`; an input that is empty or one of the three is unchanged, any other
input is cleared. -/
theorem setDefaults_pullPolicy {σ : Type} (fw : Framework σ) (d d1 : defaulter) (s s1 : σ)
    (h : d.setDefaults fw s = .ok (d1, s1)) :
    (d1.Defaultable.Spec.ImagePullPolicy = "" ∨
      d1.Defaultable.Spec.ImagePullPolicy = "Always" ∨
      d1.Defaultable.Spec.ImagePullPolicy = "IfNotPresent" ∨
      d1.Defaultable.Spec.ImagePullPolicy = "Never") ∧
    (d.Defaultable.Spec.ImagePullPolicy = "" ∨
        d.Defaultable.Spec.ImagePullPolicy = "Always" ∨
        d.Defaultable.Spec.ImagePullPolicy = "IfNotPresent" ∨
        d.Defaultable.Spec.ImagePullPolicy = "Never" →
      d1.Defaultable.Spec.ImagePullPolicy = d.Defaultable.Spec.ImagePullPolicy) ∧
    (¬ (d.Defaultable.Spec.ImagePullPolicy = "" ∨
        d.Defaultable.Spec.ImagePullPolicy = "Always" ∨
        d.Defaultable.Spec.ImagePullPolicy = "IfNotPresent" ∨
        d.Defaultable.Spec.ImagePullPolicy = "Never") →
      d1.Defaultable.Spec.ImagePullPolicy = "") := by
  obtain ⟨_, hpp, _⟩ := setDefaults_ok_fields fw d d1 s s1 h
  rw [hpp, setImageDefaults_pullPolicy]
  by_cases h0 : d.Defaultable.Spec.ImagePullPolicy = "" <;>
    by_cases h1 : d.Defaultable.Spec.ImagePullPolicy = "Always" <;>
    by_cases h2 : d.Defaultable.Spec.ImagePullPolicy = "IfNotPresent" <;>
    by_cases h3 : d.Defaultable.Spec.ImagePullPolicy = "Never" <;>
    simp_all

/-- C14, witness: the pull policy `invalid` is cleared. -/
theorem setDefaults_pullPolicy_witness :
    ∃ d1,
      defaulter.setDefaults offlineFramework
          (plainDefaulter (AllDefaultsCommunityNexus.SetPullPolicy "invalid")) ()
        = .ok (d1, ()) ∧
      d1.Defaultable.Spec.ImagePullPolicy = "" := by
  refine ⟨_, rfl, ?_⟩
  exact (setDefaults_pullPolicy offlineFramework
    (plainDefaulter (AllDefaultsCommunityNexus.SetPullPolicy "invalid")) _ () () rfl).2.2
    (by decide)

/-! ## Defaulting of the networking -/

/-- C15: with `expose` true and `exposeAs` unset, a run of defaulting keeps `expose` true
and sets `exposeAs` to Route if routes are available, else to Ingress if ingresses are, else
to NodePort. -/
theorem setDefaults_picks_exposeAs {σ : Type} (fw : Framework σ) (d d1 : defaulter)
    (s s1 : σ) (h : d.setDefaults fw s = .ok (d1, s1))
    (hexp : d.Defaultable.Spec.Networking.Expose = some true)
    (has : d.Defaultable.Spec.Networking.ExposeAs = "") :
    d1.Defaultable.Spec.Networking.Expose = some true ∧
    d1.Defaultable.Spec.Networking.ExposeAs =
      (if d.routeAvailable = true then "Route"
        else if d.ingressAvailable = true then "Ingress" else "NodePort") := by
  obtain ⟨_, _, hnet, _⟩ := setDefaults_ok_fields fw d d1 s s1 h
  obtain ⟨he, ha⟩ := setNetworkingDefaults_expose d
  rw [hnet, he, ha, hexp, has]
  simp

/-- C15, witness: only the ingress capability gives Ingress, both capabilities give Route. -/
theorem setDefaults_picks_exposeAs_witness :
    (∃ d1,
      defaulter.setDefaults offlineFramework
          ⟨AllDefaultsCommunityNexus.withExpose (some true) "", false, true⟩ ()
        = .ok (d1, ()) ∧
      d1.Defaultable.Spec.Networking.Expose = some true ∧
      d1.Defaultable.Spec.Networking.ExposeAs = "Ingress") ∧
    (∃ d1,
      defaulter.setDefaults offlineFramework
          ⟨AllDefaultsCommunityNexus.withExpose (some true) "", true, true⟩ ()
        = .ok (d1, ()) ∧
      d1.Defaultable.Spec.Networking.Expose = some true ∧
      d1.Defaultable.Spec.Networking.ExposeAs = "Route") := by
  constructor
  · refine ⟨_, rfl, ?_⟩
    exact setDefaults_picks_exposeAs offlineFramework
      ⟨AllDefaultsCommunityNexus.withExpose (some true) "", false, true⟩ _ () () rfl rfl rfl
  · refine ⟨_, rfl, ?_⟩
    exact setDefaults_picks_exposeAs offlineFramework
      ⟨AllDefaultsCommunityNexus.withExpose (some true) "", true, true⟩ _ () () rfl rfl rfl

/-- C16: the other rows of the networking table, for every capability snapshot: both unset
gives `expose` false and `exposeAs` unset; `expose` false with `exposeAs` unset is unchanged;
`expose` unset with `exposeAs` set gives `expose` true and the same `exposeAs`; both set is
unchanged. -/
theorem setDefaults_networking_table {σ : Type} (fw : Framework σ) (d d1 : defaulter)
    (s s1 : σ) (h : d.setDefaults fw s = .ok (d1, s1)) :
    (d.Defaultable.Spec.Networking.Expose = none ∧
        d.Defaultable.Spec.Networking.ExposeAs = "" →
      d1.Defaultable.Spec.Networking.Expose = some false ∧
        d1.Defaultable.Spec.Networking.ExposeAs = "") ∧
    (d.Defaultable.Spec.Networking.Expose = some false ∧
        d.Defaultable.Spec.Networking.ExposeAs = "" →
      d1.Defaultable.Spec.Networking.Expose = some false ∧
        d1.Defaultable.Spec.Networking.ExposeAs = "") ∧
    (d.Defaultable.Spec.Networking.Expose = none ∧
        d.Defaultable.Spec.Networking.ExposeAs ≠ "" →
      d1.Defaultable.Spec.Networking.Expose = some true ∧
        d1.Defaultable.Spec.Networking.ExposeAs = d.Defaultable.Spec.Networking.ExposeAs) ∧
    (∀ b, d.Defaultable.Spec.Networking.Expose = some b ∧
        d.Defaultable.Spec.Networking.ExposeAs ≠ "" →
      d1.Defaultable.Spec.Networking.Expose = some b ∧
        d1.Defaultable.Spec.Networking.ExposeAs = d.Defaultable.Spec.Networking.ExposeAs) := by
  obtain ⟨_, _, hnet, _⟩ := setDefaults_ok_fields fw d d1 s s1 h
  obtain ⟨he, ha⟩ := setNetworkingDefaults_expose d
  rw [hnet, he, ha]
  refine ⟨?_, ?_, ?_, ?_⟩
  · rintro ⟨h1, h2⟩
    simp [h1, h2]
  · rintro ⟨h1, h2⟩
    simp [h1, h2]
  · rintro ⟨h1, h2⟩
    simp [h1, h2]
  · rintro b ⟨h1, h2⟩
    simp [h1, h2]

/-- C16, witness: `expose` unset with `exposeAs` NodePort gives `expose` true. -/
theorem setDefaults_networking_table_witness :
    ∃ d1,
      defaulter.setDefaults offlineFramework
          ⟨AllDefaultsCommunityNexus.withExpose none "NodePort", true, false⟩ ()
        = .ok (d1, ()) ∧
      d1.Defaultable.Spec.Networking.Expose = some true ∧
      d1.Defaultable.Spec.Networking.ExposeAs = "NodePort" := by
  refine ⟨_, rfl, ?_⟩
  exact (setDefaults_networking_table offlineFramework
    ⟨AllDefaultsCommunityNexus.withExpose none "NodePort", true, false⟩ _ () () rfl).2.2.1
    ⟨rfl, by decide⟩

/-- C17: after a run of defaulting `expose` is set, and if it is true then `exposeAs` is not
empty. -/
theorem setDefaults_networking_normalized {σ : Type} (fw : Framework σ) (d d1 : defaulter)
    (s s1 : σ) (h : d.setDefaults fw s = .ok (d1, s1)) :
    d1.Defaultable.Spec.Networking.Expose ≠ none ∧
    (d1.Defaultable.Spec.Networking.Expose = some true →
      d1.Defaultable.Spec.Networking.ExposeAs ≠ "") := by
  obtain ⟨_, _, hnet, _⟩ := setDefaults_ok_fields fw d d1 s s1 h
  obtain ⟨he, ha⟩ := setNetworkingDefaults_expose d
  rw [hnet, he, ha]
  rcases hexp : d.Defaultable.Spec.Networking.Expose with _ | _ | _ <;>
    by_cases has : d.Defaultable.Spec.Networking.ExposeAs = "" <;>
    cases hr : d.routeAvailable <;> cases hi : d.ingressAvailable <;>
    simp [has]

/-- C17, witness: the default resource, whose `expose` and `exposeAs` are both unset. -/
theorem setDefaults_networking_normalized_witness :
    ∃ d1,
      defaulter.setDefaults offlineFramework (plainDefaulter AllDefaultsCommunityNexus) ()
        = .ok (d1, ()) ∧
      d1.Defaultable.Spec.Networking.Expose ≠ none ∧
      (d1.Defaultable.Spec.Networking.Expose = some true →
        d1.Defaultable.Spec.Networking.ExposeAs ≠ "") := by
  refine ⟨_, rfl, ?_⟩
  exact setDefaults_networking_normalized offlineFramework
    (plainDefaulter AllDefaultsCommunityNexus) _ () () rfl

/-! ## Defaulting of the automatic update -/

/-- C18, counterexample: automatic update enabled, the minor pinned to -1, which the
registry does not know, and a latest minor 29 with micro tag `3.29.2`; but the image is
`some-image`. The update switches itself off: the minor stays -1 and the image is kept. -/
theorem setDefaults_fallback_skipped_for_other_image :
    ∃ d1,
      defaulter.setDefaults registryFramework
          (plainDefaulter ((AllDefaultsCommunityNexus.withImage false "some-image").withUpdate
            false (some (-1)))) ()
        = .ok (d1, ()) ∧
      d1.Defaultable.Spec.AutomaticUpdate = { Disabled := true, MinorVersion := some (-1) } ∧
      d1.Defaultable.Spec.Image = "some-image" :=
  ⟨_, rfl, rfl, rfl⟩

/-- C18, amended: automatic update enabled, `useRedHatImage` false, the image unset or on
the community repository, a pinned minor for which the resolver finds no micro tag, and a
latest minor lookup that answers `m`, whose micro lookup answers the tag `t`: after
defaulting the minor is `m`, the image is the community image followed by a colon and `t`,
and automatic update is still enabled. -/
theorem setDefaults_fallback_to_latest_minor {σ : Type} (fw : Framework σ) (d d1 : defaulter)
    (s s1 sa sb sc : σ) (p m : Int) (t0 t : String) (b : Bool)
    (h : d.setDefaults fw s = .ok (d1, s1))
    (hdis : d.Defaultable.Spec.AutomaticUpdate.Disabled = false)
    (hrh : d.Defaultable.Spec.UseRedHatImage = false)
    (himg : d.Defaultable.Spec.Image = "" ∨
      splitHead d.Defaultable.Spec.Image = NexusCommunityImage)
    (hm : d.Defaultable.Spec.AutomaticUpdate.MinorVersion = some p)
    (hmic : fw.GetLatestMicro p s = ((t0, false), sa))
    (hmin : fw.GetLatestMinor sa = (.ok m, sb))
    (hmic2 : fw.GetLatestMicro m sb = ((t, b), sc)) :
    d1.Defaultable.Spec.AutomaticUpdate.MinorVersion = some m ∧
    d1.Defaultable.Spec.Image = NexusCommunityImage ++ ":" ++ t ∧
    d1.Defaultable.Spec.AutomaticUpdate.Disabled = false := by
  obtain ⟨_, _, _, _, _, dp, d2, hu, hi, hau, h1i, h1a⟩ := setDefaults_ok_fields fw d d1 s s1 h
  have hcomm : splitHead dp.Defaultable.Spec.Image = NexusCommunityImage := by
    rw [hi]
    exact setImageDefaults_community d hrh himg
  rw [setUpdateDefaults_pinned fw dp s p (by rw [hau]; exact hdis) hcomm
    (by rw [hau]; exact hm)] at hu
  obtain ⟨y, hy, hyi, hym, hyd⟩ := fetchMicro_fallback fw NexusCommunityImage dp s sa sb sc
    p m t0 t b (by rw [hau]; exact hm) hmic hmin hmic2
  rw [hy] at hu
  simp only [Except.ok.injEq, Prod.mk.injEq] at hu
  obtain ⟨rfl, _⟩ := hu
  rw [h1i, h1a]
  exact ⟨hym, hyi, by rw [hyd, hau]; exact hdis⟩

/-- C18, witness: the community image with the minor pinned to -1. -/
theorem setDefaults_fallback_to_latest_minor_witness :
    ∃ d1,
      defaulter.setDefaults registryFramework
          (plainDefaulter (AllDefaultsCommunityNexus.withUpdate false (some (-1)))) ()
        = .ok (d1, ()) ∧
      d1.Defaultable.Spec.AutomaticUpdate.MinorVersion = some 29 ∧
      d1.Defaultable.Spec.Image = NexusCommunityImage ++ ":" ++ "3.29.2" ∧
      d1.Defaultable.Spec.AutomaticUpdate.Disabled = false := by
  refine ⟨_, rfl, ?_⟩
  exact setDefaults_fallback_to_latest_minor registryFramework
    (plainDefaulter (AllDefaultsCommunityNexus.withUpdate false (some (-1)))) _
    () () () () () (-1) 29 "" "3.29.2" true rfl rfl rfl (Or.inr (by decide)) rfl rfl rfl rfl

/-- C19: automatic update enabled, `useRedHatImage` false, no minor, and the image unset or
the community image with or without a tag: if the latest minor lookup answers `m` and the
micro lookup for `m` finds the tag `t`, then after defaulting the minor is `m` and the image
is the community image followed by a colon and `t`. -/
theorem setDefaults_resolves_latest_minor {σ : Type} (fw : Framework σ) (d d1 : defaulter)
    (s s1 sa sb : σ) (m : Int) (t : String)
    (h : d.setDefaults fw s = .ok (d1, s1))
    (hdis : d.Defaultable.Spec.AutomaticUpdate.Disabled = false)
    (hrh : d.Defaultable.Spec.UseRedHatImage = false)
    (hm : d.Defaultable.Spec.AutomaticUpdate.MinorVersion = none)
    (himg : d.Defaultable.Spec.Image = "" ∨ d.Defaultable.Spec.Image = NexusCommunityImage ∨
      ∃ tag, d.Defaultable.Spec.Image = NexusCommunityImage ++ ":" ++ tag)
    (hmin : fw.GetLatestMinor s = (.ok m, sa))
    (hmic : fw.GetLatestMicro m sa = ((t, true), sb)) :
    d1.Defaultable.Spec.AutomaticUpdate.MinorVersion = some m ∧
    d1.Defaultable.Spec.Image = NexusCommunityImage ++ ":" ++ t := by
  obtain ⟨_, _, _, _, _, dp, d2, hu, hi, hau, h1i, h1a⟩ := setDefaults_ok_fields fw d d1 s s1 h
  have hcomm : splitHead dp.Defaultable.Spec.Image = NexusCommunityImage := by
    rw [hi]
    refine setImageDefaults_community d hrh ?_
    rcases himg with h0 | h0 | ⟨tag, h0⟩
    · exact Or.inl h0
    · exact Or.inr (by rw [h0]; exact splitHead_community)
    · exact Or.inr (by rw [h0]; exact splitHead_community_tag tag)
  rw [setUpdateDefaults_unset fw dp s sa m (by rw [hau]; exact hdis) hcomm
    (by rw [hau]; exact hm) hmin] at hu
  obtain ⟨y, hy, hyi, hya⟩ := fetchMicro_found fw NexusCommunityImage
    (dp.withNexus (dp.Defaultable.SetMinorVersion m)) sa sb m t rfl hmic
  rw [hy] at hu
  simp only [Except.ok.injEq, Prod.mk.injEq] at hu
  obtain ⟨rfl, _⟩ := hu
  rw [h1i, h1a, hya]
  exact ⟨rfl, hyi⟩

/-- C19, witness: the image unset and no minor, in front of the registry. -/
theorem setDefaults_resolves_latest_minor_witness :
    ∃ d1,
      defaulter.setDefaults registryFramework
          (plainDefaulter (AllDefaultsCommunityNexus.withImage false "")) ()
        = .ok (d1, ()) ∧
      d1.Defaultable.Spec.AutomaticUpdate.MinorVersion = some 29 ∧
      d1.Defaultable.Spec.Image = NexusCommunityImage ++ ":" ++ "3.29.2" := by
  refine ⟨_, rfl, ?_⟩
  exact setDefaults_resolves_latest_minor registryFramework
    (plainDefaulter (AllDefaultsCommunityNexus.withImage false "")) _
    () () () () 29 "3.29.2" rfl rfl rfl rfl (Or.inl rfl) rfl rfl

/-- C20, counterexample: automatic update enabled and the minor pinned to 29, for which the
registry finds `3.29.2`; but `useRedHatImage` is true. The image after defaulting is the
certified image, not the community image with the tag. -/
theorem setDefaults_pinned_skipped_for_certified_image :
    ∃ d1,
      defaulter.setDefaults registryFramework
          (plainDefaulter ((AllDefaultsCommunityNexus.withImage true "").withUpdate
            false (some 29))) ()
        = .ok (d1, ()) ∧
      d1.Defaultable.Spec.Image = NexusCertifiedImage ∧
      d1.Defaultable.Spec.Image ≠ NexusCommunityImage ++ ":" ++ "3.29.2" :=
  ⟨_, rfl, rfl, by decide⟩

/-- C20, amended: automatic update enabled and a pinned minor for which the resolver finds
the micro tag `t`: after defaulting the minor is unchanged, whatever the image is; and when
`useRedHatImage` is false and the image is unset or on the community repository, the image
is the community image followed by a colon and `t`. -/
theorem setDefaults_keeps_pinned_minor {σ : Type} (fw : Framework σ) (d d1 : defaulter)
    (s s1 sa : σ) (p : Int) (t : String)
    (h : d.setDefaults fw s = .ok (d1, s1))
    (hdis : d.Defaultable.Spec.AutomaticUpdate.Disabled = false)
    (hm : d.Defaultable.Spec.AutomaticUpdate.MinorVersion = some p)
    (hmic : fw.GetLatestMicro p s = ((t, true), sa)) :
    d1.Defaultable.Spec.AutomaticUpdate.MinorVersion = some p ∧
    (d.Defaultable.Spec.UseRedHatImage = false →
      (d.Defaultable.Spec.Image = "" ∨
        splitHead d.Defaultable.Spec.Image = NexusCommunityImage) →
      d1.Defaultable.Spec.Image = NexusCommunityImage ++ ":" ++ t) := by
  obtain ⟨_, _, _, _, _, dp, d2, hu, hi, hau, h1i, h1a⟩ := setDefaults_ok_fields fw d d1 s s1 h
  have hdis2 : dp.Defaultable.Spec.AutomaticUpdate.Disabled = false := by rw [hau]; exact hdis
  have hm2 : dp.Defaultable.Spec.AutomaticUpdate.MinorVersion = some p := by rw [hau]; exact hm
  by_cases hcomm : splitHead dp.Defaultable.Spec.Image = NexusCommunityImage
  · rw [setUpdateDefaults_pinned fw dp s p hdis2 hcomm hm2] at hu
    obtain ⟨y, hy, hyi, hya⟩ := fetchMicro_found fw NexusCommunityImage dp s sa p t hm2 hmic
    rw [hy] at hu
    simp only [Except.ok.injEq, Prod.mk.injEq] at hu
    obtain ⟨rfl, _⟩ := hu
    rw [h1i, h1a, hya]
    exact ⟨hm2, fun _ _ => hyi⟩
  · rw [setUpdateDefaults_other_image fw dp s hdis2 hcomm] at hu
    simp only [Except.ok.injEq, Prod.mk.injEq] at hu
    obtain ⟨rfl, _⟩ := hu
    rw [h1a]
    refine ⟨hm2, fun hrh himg => absurd ?_ hcomm⟩
    rw [hi]
    exact setImageDefaults_community d hrh himg

/-- C20, witness: the community image with an old tag and the minor pinned to 29: the minor
stays 29 and the image takes the tag found. -/
theorem setDefaults_keeps_pinned_minor_witness :
    ∃ d1,
      defaulter.setDefaults registryFramework
          (plainDefaulter ((AllDefaultsCommunityNexus.withImage false
            "docker.io/sonatype/nexus3:3.29.0").withUpdate false (some 29))) ()
        = .ok (d1, ()) ∧
      d1.Defaultable.Spec.AutomaticUpdate.MinorVersion = some 29 ∧
      d1.Defaultable.Spec.Image = NexusCommunityImage ++ ":" ++ "3.29.2" := by
  refine ⟨_, rfl, ?_⟩
  have hw := setDefaults_keeps_pinned_minor registryFramework
    (plainDefaulter ((AllDefaultsCommunityNexus.withImage false
      "docker.io/sonatype/nexus3:3.29.0").withUpdate false (some 29))) _
    () () () 29 "3.29.2" rfl rfl rfl rfl
  exact ⟨hw.1, hw.2 rfl (Or.inr (by decide))⟩

/-! ## Validation: the single rules -/

/-- C23: with `expose` true, `exposeAs` NodePort and `nodePort` 0, `validate` rejects with
the message of nodeport-missing-port, whatever the capabilities, the host and the TLS
fields. -/
theorem validate_nodeport_without_port (v : validator)
    (hexp : v.Validatable.Spec.Networking.Expose = some true)
    (has : v.Validatable.Spec.Networking.ExposeAs = "NodePort")
    (hport : v.Validatable.Spec.Networking.NodePort = 0) :
    v.validate = some "nodeport expose required, but no port informed" := by
  rw [validate_eq_firstViolatedRule, if_pos hexp]
  simp [firstViolatedRule, Reason.inOrder, List.find?, Reason.holds, Reason.message, has, hport]

/-- C23, witness: the test input, a NodePort exposure without a port, on a cluster with
both capabilities. -/
theorem validate_nodeport_without_port_witness :
    validator.validate
        ⟨AllDefaultsCommunityNexus.withExpose (some true) "NodePort", true, true⟩
      = some "nodeport expose required, but no port informed" :=
  validate_nodeport_without_port
    ⟨AllDefaultsCommunityNexus.withExpose (some true) "NodePort", true, true⟩ rfl rfl rfl

/-- C24: with `expose` true, an Ingress exposure without the ingress capability is rejected
with the message of ingress-unavailable, and a Route exposure without the route capability
with the message of route-unavailable, whatever the other capability and fields. -/
theorem validate_mechanism_unavailable (v : validator)
    (hexp : v.Validatable.Spec.Networking.Expose = some true) :
    (v.Validatable.Spec.Networking.ExposeAs = "Ingress" → v.ingressAvailable = false →
      v.validate = some "ingress expose required, but unavailable") ∧
    (v.Validatable.Spec.Networking.ExposeAs = "Route" → v.routeAvailable = false →
      v.validate = some "route expose required, but unavailable") := by
  rw [validate_eq_firstViolatedRule, if_pos hexp]
  constructor
  · intro has hi
    simp [firstViolatedRule, Reason.inOrder, List.find?, Reason.holds, Reason.message, has, hi]
  · intro has hr
    simp [firstViolatedRule, Reason.inOrder, List.find?, Reason.holds, Reason.message, has, hr]

/-- C24, witness: an Ingress exposure with a host on a cluster that has routes only, and a
Route exposure on a cluster that has ingresses only. -/
theorem validate_mechanism_unavailable_witness :
    validator.validate
        ⟨(AllDefaultsCommunityNexus.withNetworking
          ⟨some true, "Ingress", "example.com", 0, ⟨false, ""⟩⟩), true, false⟩
      = some "ingress expose required, but unavailable" ∧
    validator.validate
        ⟨AllDefaultsCommunityNexus.withExpose (some true) "Route", false, true⟩
      = some "route expose required, but unavailable" :=
  ⟨(validate_mechanism_unavailable
      ⟨(AllDefaultsCommunityNexus.withNetworking
        ⟨some true, "Ingress", "example.com", 0, ⟨false, ""⟩⟩), true, false⟩ rfl).1 rfl rfl,
   (validate_mechanism_unavailable
      ⟨AllDefaultsCommunityNexus.withExpose (some true) "Route", false, true⟩ rfl).2 rfl rfl⟩

/-- C25: with `expose` true, a TLS secret name without an Ingress exposure is rejected, and
mandatory TLS without a Route exposure is rejected; so a configuration with both a secret
name and mandatory TLS is rejected under every mechanism. -/
theorem validate_tls_rejected (v : validator)
    (hexp : v.Validatable.Spec.Networking.Expose = some true) :
    (v.Validatable.Spec.Networking.TLS.SecretName ≠ "" →
      v.Validatable.Spec.Networking.ExposeAs ≠ "Ingress" → v.validate ≠ none) ∧
    (v.Validatable.Spec.Networking.TLS.Mandatory = true →
      v.Validatable.Spec.Networking.ExposeAs ≠ "Route" → v.validate ≠ none) ∧
    (v.Validatable.Spec.Networking.TLS.SecretName ≠ "" →
      v.Validatable.Spec.Networking.TLS.Mandatory = true → v.validate ≠ none) := by
  rw [validate_eq_firstViolatedRule, if_pos hexp]
  have key : ∀ r : Reason, r.holds v → (firstViolatedRule v).map Reason.message ≠ none := by
    intro r hr hnone
    have hf : firstViolatedRule v = none := by simpa using hnone
    have := List.find?_eq_none.mp hf r (by cases r <;> simp [Reason.inOrder])
    simp [hr] at this
  refine ⟨fun hs ha => key .secretNameRequiresIngress ⟨hs, ha⟩,
    fun hm ha => key .mandatoryTLSRequiresRoute ⟨hm, ha⟩, fun hs hm => ?_⟩
  by_cases ha : v.Validatable.Spec.Networking.ExposeAs = "Ingress"
  · exact key .mandatoryTLSRequiresRoute ⟨hm, by rw [ha]; decide⟩
  · exact key .secretNameRequiresIngress ⟨hs, ha⟩

/-- C25, witness: a Route exposure with a TLS secret name on a cluster with routes. -/
theorem validate_tls_rejected_witness :
    validator.validate
        ⟨(AllDefaultsCommunityNexus.withNetworking
          ⟨some true, "Route", "", 0, ⟨false, "test-secret"⟩⟩), true, false⟩ ≠ none :=
  (validate_tls_rejected
    ⟨(AllDefaultsCommunityNexus.withNetworking
      ⟨some true, "Route", "", 0, ⟨false, "test-secret"⟩⟩), true, false⟩ rfl).1
    (by decide) (by decide)

/-- C26: `validate` accepts an exposed configuration that is well formed for its mechanism:
an Ingress with the capability, a host and no mandatory TLS; a Route with the capability
and no secret name; a NodePort with a port, no secret name and no mandatory TLS. -/
theorem validate_accepts_well_formed (v : validator)
    (hexp : v.Validatable.Spec.Networking.Expose = some true) :
    (v.Validatable.Spec.Networking.ExposeAs = "Ingress" → v.ingressAvailable = true →
      v.Validatable.Spec.Networking.Host ≠ "" →
      v.Validatable.Spec.Networking.TLS.Mandatory = false → v.validate = none) ∧
    (v.Validatable.Spec.Networking.ExposeAs = "Route" → v.routeAvailable = true →
      v.Validatable.Spec.Networking.TLS.SecretName = "" → v.validate = none) ∧
    (v.Validatable.Spec.Networking.ExposeAs = "NodePort" →
      v.Validatable.Spec.Networking.NodePort ≠ 0 →
      v.Validatable.Spec.Networking.TLS.SecretName = "" →
      v.Validatable.Spec.Networking.TLS.Mandatory = false → v.validate = none) := by
  rw [validate_eq_firstViolatedRule, if_pos hexp]
  refine ⟨fun ha hi hh hm => ?_, fun ha hr hs => ?_, fun ha hp hs hm => ?_⟩
  · simp [firstViolatedRule, Reason.inOrder, List.find?, Reason.holds, ha, hi, hh, hm]
  · simp [firstViolatedRule, Reason.inOrder, List.find?, Reason.holds, ha, hr, hs]
  · simp [firstViolatedRule, Reason.inOrder, List.find?, Reason.holds, ha, hp, hs, hm]

/-- C26, witness: the three valid inputs of the test: an Ingress with a TLS secret, a Route
with mandatory TLS, a NodePort with port 8080 on a cluster without capabilities. -/
theorem validate_accepts_well_formed_witness :
    validator.validate
        ⟨(AllDefaultsCommunityNexus.withNetworking
          ⟨some true, "Ingress", "example.com", 0, ⟨false, "tt-secret"⟩⟩), false, true⟩ = none ∧
    validator.validate
        ⟨(AllDefaultsCommunityNexus.withNetworking
          ⟨some true, "Route", "", 0, ⟨true, ""⟩⟩), true, false⟩ = none ∧
    validator.validate
        ⟨(AllDefaultsCommunityNexus.withNetworking
          ⟨some true, "NodePort", "", 8080, ⟨false, ""⟩⟩), false, false⟩ = none :=
  ⟨(validate_accepts_well_formed
      ⟨(AllDefaultsCommunityNexus.withNetworking
        ⟨some true, "Ingress", "example.com", 0, ⟨false, "tt-secret"⟩⟩), false, true⟩ rfl).1
      rfl rfl (by decide) rfl,
   (validate_accepts_well_formed
      ⟨(AllDefaultsCommunityNexus.withNetworking
        ⟨some true, "Route", "", 0, ⟨true, ""⟩⟩), true, false⟩ rfl).2.1 rfl rfl rfl,
   (validate_accepts_well_formed
      ⟨(AllDefaultsCommunityNexus.withNetworking
        ⟨some true, "NodePort", "", 8080, ⟨false, ""⟩⟩), false, false⟩ rfl).2.2
      rfl (by decide) rfl rfl⟩

/-! ## More lemmas on the stages and on the update stage -/

/-- A run whose deployment stage and update stage complete is complete. -/
theorem setDefaults_of_stages {σ : Type} (fw : Framework σ) (d dp d2 : defaulter) (s s1 : σ)
    (hdp : d.setDeploymentDefaults = .ok dp)
    (hu : dp.setUpdateDefaults fw s = .ok (d2, s1)) :
    d.setDefaults fw s
      = .ok (d2.setNetworkingDefaults.setPersistenceDefaults.setSecurityDefaults, s1) := by
  unfold defaulter.setDefaults
  simp only [hdp, hu, bind, Except.bind]

/-- With no minor and a failing latest minor lookup the update stage only switches itself
off. -/
theorem setUpdateDefaults_unset_fails {σ : Type} (fw : Framework σ) (x : defaulter)
    (s s1 : σ) (e : String)
    (hdis : x.Defaultable.Spec.AutomaticUpdate.Disabled = false)
    (himg : splitHead x.Defaultable.Spec.Image = NexusCommunityImage)
    (hm : x.Defaultable.Spec.AutomaticUpdate.MinorVersion = none)
    (hmin : fw.GetLatestMinor s = (.error e, s1)) :
    x.setUpdateDefaults fw s = .ok (x.withNexus x.Defaultable.DisableUpdate, s1) := by
  unfold defaulter.setUpdateDefaults
  simp [Nexus.IsUpdateDisabled, Nexus.Image, Nexus.IsMinorVersionSet, hdis, himg, hm, hmin,
    defaulter.handleTagFetchError]

/-- With a minor that is not found and a failing latest minor lookup the tail of the update
stage only switches the update off. -/
theorem fetchMicro_fails {σ : Type} (fw : Framework σ) (image : String) (x : defaulter)
    (s s1 s2 : σ) (p : Int) (t0 e : String)
    (hm : x.Defaultable.Spec.AutomaticUpdate.MinorVersion = some p)
    (hmic : fw.GetLatestMicro p s = ((t0, false), s1))
    (hmin : fw.GetLatestMinor s1 = (.error e, s2)) :
    defaulter.setUpdateDefaults.fetchMicro fw image x s
      = .ok (x.withNexus x.Defaultable.DisableUpdate, s2) := by
  unfold defaulter.setUpdateDefaults.fetchMicro
  simp only [Nexus.MinorVersion, hm, deref, bind, Except.bind, hmic, hmin, Bool.not_false,
    if_true, defaulter.handleTagFetchError]

/-- After the last three passes on a resource whose update was just switched off, the
update is off and the image and the minor are as before. -/
theorem lastPasses_after_disable (x : defaulter) :
    (x.withNexus x.Defaultable.DisableUpdate).setNetworkingDefaults.setPersistenceDefaults.setSecurityDefaults.Defaultable.Spec.AutomaticUpdate.Disabled
      = true ∧
    (x.withNexus x.Defaultable.DisableUpdate).setNetworkingDefaults.setPersistenceDefaults.setSecurityDefaults.Defaultable.Spec.Image
      = x.Defaultable.Spec.Image ∧
    (x.withNexus x.Defaultable.DisableUpdate).setNetworkingDefaults.setPersistenceDefaults.setSecurityDefaults.Defaultable.Spec.AutomaticUpdate.MinorVersion
      = x.Defaultable.Spec.AutomaticUpdate.MinorVersion := by
  obtain ⟨hi, ha, _⟩ := lastPasses_frame (x.withNexus x.Defaultable.DisableUpdate)
  rw [hi, ha]
  exact ⟨rfl, rfl, rfl⟩

/-! ## Automatic update: lookup failure and the image check -/

/-- C21, counterexample: the default resource (community image, automatic update enabled,
no minor) in front of a resolver whose first latest minor lookup answers 30, which finds no
micro for 30 and whose second latest minor lookup fails: defaulting ends with the update
disabled and the minor 30, not the unset minor with which the update pass started. -/
theorem setDefaults_fresh_minor_stays_after_failed_fallback :
    ∃ d1 s1,
      defaulter.setDefaults flakyFramework (plainDefaulter AllDefaultsCommunityNexus) 0
        = .ok (d1, s1) ∧
      d1.Defaultable.Spec.AutomaticUpdate = { Disabled := true, MinorVersion := some 30 } ∧
      d1.Defaultable.Spec.Image = NexusCommunityImage ∧
      AllDefaultsCommunityNexus.Spec.AutomaticUpdate.MinorVersion = none ∧
      flakyFramework.GetLatestMinor 1 = (.error "registry unreachable", 2) :=
  ⟨_, _, rfl, rfl, rfl, rfl, rfl⟩

/-- C21, amended: when a latest minor lookup fails during the update pass, the run
completes: the update is disabled, the image is the one at the start of the update pass
(`dp`), and the networking, persistence and security passes have run on the result. The
minor is the one at the start of the update pass when the failing lookup is the first of the
pass (no minor set) or the fallback after the pinned minor was not found; in the fallback
after a freshly resolved minor was not found, the minor is that fresh minor. -/
theorem setDefaults_minor_lookup_fails {σ : Type} (fw : Framework σ) (d dp : defaulter)
    (s : σ) (hdp : d.setDeploymentDefaults = .ok dp)
    (hdis : dp.Defaultable.Spec.AutomaticUpdate.Disabled = false)
    (himg : splitHead dp.Defaultable.Spec.Image = NexusCommunityImage) :
    (∀ e sa, dp.Defaultable.Spec.AutomaticUpdate.MinorVersion = none →
      fw.GetLatestMinor s = (.error e, sa) →
      ∃ d1, d.setDefaults fw s = .ok (d1, sa) ∧
        d1 = (dp.withNexus
          dp.Defaultable.DisableUpdate).setNetworkingDefaults.setPersistenceDefaults.setSecurityDefaults ∧
        d1.Defaultable.Spec.AutomaticUpdate.Disabled = true ∧
        d1.Defaultable.Spec.Image = dp.Defaultable.Spec.Image ∧
        d1.Defaultable.Spec.AutomaticUpdate.MinorVersion = none) ∧
    (∀ p t0 e sa sb, dp.Defaultable.Spec.AutomaticUpdate.MinorVersion = some p →
      fw.GetLatestMicro p s = ((t0, false), sa) →
      fw.GetLatestMinor sa = (.error e, sb) →
      ∃ d1, d.setDefaults fw s = .ok (d1, sb) ∧
        d1 = (dp.withNexus
          dp.Defaultable.DisableUpdate).setNetworkingDefaults.setPersistenceDefaults.setSecurityDefaults ∧
        d1.Defaultable.Spec.AutomaticUpdate.Disabled = true ∧
        d1.Defaultable.Spec.Image = dp.Defaultable.Spec.Image ∧
        d1.Defaultable.Spec.AutomaticUpdate.MinorVersion = some p) ∧
    (∀ m t0 e sa sb sc, dp.Defaultable.Spec.AutomaticUpdate.MinorVersion = none →
      fw.GetLatestMinor s = (.ok m, sa) →
      fw.GetLatestMicro m sa = ((t0, false), sb) →
      fw.GetLatestMinor sb = (.error e, sc) →
      ∃ d1, d.setDefaults fw s = .ok (d1, sc) ∧
        d1 = ((dp.withNexus (dp.Defaultable.SetMinorVersion m)).withNexus
          (dp.withNexus (dp.Defaultable.SetMinorVersion
            m)).Defaultable.DisableUpdate).setNetworkingDefaults.setPersistenceDefaults.setSecurityDefaults ∧
        d1.Defaultable.Spec.AutomaticUpdate.Disabled = true ∧
        d1.Defaultable.Spec.Image = dp.Defaultable.Spec.Image ∧
        d1.Defaultable.Spec.AutomaticUpdate.MinorVersion = some m) := by
  obtain ⟨hd, hi, hm⟩ := lastPasses_after_disable dp
  refine ⟨?_, ?_, ?_⟩
  · intro e sa hmv hmin
    refine ⟨_, setDefaults_of_stages fw d dp _ s sa hdp
      (setUpdateDefaults_unset_fails fw dp s sa e hdis himg hmv hmin), rfl, hd, hi, ?_⟩
    rw [hm, hmv]
  · intro p t0 e sa sb hmv hmic hmin
    refine ⟨_, setDefaults_of_stages fw d dp _ s sb hdp ?_, rfl, hd, hi, ?_⟩
    · rw [setUpdateDefaults_pinned fw dp s p hdis himg hmv]
      exact fetchMicro_fails fw NexusCommunityImage dp s sa sb p t0 e hmv hmic hmin
    · rw [hm, hmv]
  · intro m t0 e sa sb sc hmv hmin hmic hmin2
    obtain ⟨hd2, hi2, hm2⟩ := lastPasses_after_disable
      (dp.withNexus (dp.Defaultable.SetMinorVersion m))
    refine ⟨_, setDefaults_of_stages fw d dp _ s sc hdp ?_, rfl, hd2, hi2, hm2⟩
    rw [setUpdateDefaults_unset fw dp s sa m hdis himg hmv hmin]
    exact fetchMicro_fails fw NexusCommunityImage
      (dp.withNexus (dp.Defaultable.SetMinorVersion m)) sa sb sc m t0 e rfl hmic hmin2

/-- C21, witness: the default resource with `expose` asked for, in front of an unreachable
registry and on a cluster with ingresses: the update is disabled, the image is kept, and the
networking pass has chosen Ingress. -/
theorem setDefaults_minor_lookup_fails_witness :
    ∃ d1,
      defaulter.setDefaults offlineFramework
          ⟨AllDefaultsCommunityNexus.withExpose (some true) "", false, true⟩ ()
        = .ok (d1, ()) ∧
      d1.Defaultable.Spec.AutomaticUpdate.Disabled = true ∧
      d1.Defaultable.Spec.Image = NexusCommunityImage ∧
      d1.Defaultable.Spec.AutomaticUpdate.MinorVersion = none ∧
      d1.Defaultable.Spec.Networking.ExposeAs = "Ingress" := by
  obtain ⟨d1, h1, h2, h3, h4, h5⟩ := (setDefaults_minor_lookup_fails offlineFramework
    ⟨AllDefaultsCommunityNexus.withExpose (some true) "", false, true⟩ _ () rfl rfl
    (by decide)).1 "registry unreachable" () rfl rfl
  refine ⟨d1, h1, h3, h4, h5, ?_⟩
  rw [h2]
  rfl

/-- The persistence settings after the persistence pass. -/
theorem setPersistenceDefaults_persistence (x : defaulter) :
    x.setPersistenceDefaults.Defaultable.Spec.Persistence.Persistent
      = x.Defaultable.Spec.Persistence.Persistent ∧
    x.setPersistenceDefaults.Defaultable.Spec.Persistence.VolumeSize =
      (if x.Defaultable.Spec.Persistence.Persistent = true ∧
          x.Defaultable.Spec.Persistence.VolumeSize = "" then DefaultVolumeSize
        else x.Defaultable.Spec.Persistence.VolumeSize) := by
  unfold defaulter.setPersistenceDefaults
  simp only [defaulter.withNexus, Nexus.SetVolumeSize, Nexus.IsPersistent, Nexus.VolumeSize]
  cases hp : x.Defaultable.Spec.Persistence.Persistent <;>
    by_cases hv : x.Defaultable.Spec.Persistence.VolumeSize = "" <;>
    simp [hp, hv, string_length_eq_zero_iff]

/-- The service account after the security pass. -/
theorem setSecurityDefaults_serviceAccount (x : defaulter) :
    x.setSecurityDefaults.Defaultable.Spec.ServiceAccountName =
      (if x.Defaultable.Spec.ServiceAccountName = "" then x.Defaultable.Name
        else x.Defaultable.Spec.ServiceAccountName) := by
  unfold defaulter.setSecurityDefaults
  simp only [defaulter.withNexus, Nexus.SetServiceAccount, Nexus.ServiceAccount, Nexus.GetName]
  by_cases hv : x.Defaultable.Spec.ServiceAccountName = "" <;>
    simp [hv, string_length_eq_zero_iff]

/-- C28: after a run of defaulting, a persistent configuration with an empty volume size
has the volume size `10Gi`; in every other case the volume size is unchanged; `persistent`
is never changed. -/
theorem setDefaults_volumeSize {σ : Type} (fw : Framework σ) (d d1 : defaulter) (s s1 : σ)
    (h : d.setDefaults fw s = .ok (d1, s1)) :
    (d.Defaultable.Spec.Persistence.Persistent = true ∧
        d.Defaultable.Spec.Persistence.VolumeSize = "" →
      d1.Defaultable.Spec.Persistence.VolumeSize = "10Gi") ∧
    (¬ (d.Defaultable.Spec.Persistence.Persistent = true ∧
        d.Defaultable.Spec.Persistence.VolumeSize = "") →
      d1.Defaultable.Spec.Persistence.VolumeSize
        = d.Defaultable.Spec.Persistence.VolumeSize) ∧
    d1.Defaultable.Spec.Persistence.Persistent = d.Defaultable.Spec.Persistence.Persistent := by
  obtain ⟨_, _, _, hper, _⟩ := setDefaults_ok_fields fw d d1 s s1 h
  obtain ⟨hp, hv⟩ := setPersistenceDefaults_persistence d
  rw [hper, hp, hv]
  refine ⟨fun hc => ?_, fun hc => ?_, rfl⟩
  · rw [if_pos hc]
    rfl
  · rw [if_neg hc]

/-- C28, witness: the test input, a persistent resource with its volume size left blank. -/
theorem setDefaults_volumeSize_witness :
    ∃ d1,
      defaulter.setDefaults offlineFramework
          (plainDefaulter (AllDefaultsCommunityNexus.withPersistence true "")) ()
        = .ok (d1, ()) ∧
      d1.Defaultable.Spec.Persistence.VolumeSize = "10Gi" := by
  refine ⟨_, rfl, ?_⟩
  exact (setDefaults_volumeSize offlineFramework
    (plainDefaulter (AllDefaultsCommunityNexus.withPersistence true "")) _ () () rfl).1
    ⟨rfl, rfl⟩

/-- C29: after a run of defaulting, an empty service account name has become the name of
the resource, and a non-empty one is unchanged. -/
theorem setDefaults_serviceAccount {σ : Type} (fw : Framework σ) (d d1 : defaulter)
    (s s1 : σ) (h : d.setDefaults fw s = .ok (d1, s1)) :
    (d.Defaultable.Spec.ServiceAccountName = "" →
      d1.Defaultable.Spec.ServiceAccountName = d.Defaultable.Name) ∧
    (d.Defaultable.Spec.ServiceAccountName ≠ "" →
      d1.Defaultable.Spec.ServiceAccountName = d.Defaultable.Spec.ServiceAccountName) := by
  obtain ⟨_, _, _, _, hsa, _⟩ := setDefaults_ok_fields fw d d1 s s1 h
  rw [hsa, setSecurityDefaults_serviceAccount]
  exact ⟨fun hc => by rw [if_pos hc], fun hc => by rw [if_neg hc]⟩

/-- C29, witness: the test input, the default resource with its service account name
left blank. -/
theorem setDefaults_serviceAccount_witness :
    ∃ d1,
      defaulter.setDefaults offlineFramework
          (plainDefaulter (AllDefaultsCommunityNexus.SetServiceAccount "")) ()
        = .ok (d1, ()) ∧
      d1.Defaultable.Spec.ServiceAccountName = "default-community-nexus" := by
  refine ⟨_, rfl, ?_⟩
  exact (setDefaults_serviceAccount offlineFramework
    (plainDefaulter (AllDefaultsCommunityNexus.SetServiceAccount "")) _ () () rfl).1 rfl

/-! ## Capability discovery -/

/-- C30: `AnyIngressAvailable` returns an error exactly when both lookups return one, and
then returns false with the error of the legacy lookup; otherwise it returns no error and
the disjunction of the two booleans. -/
theorem AnyIngressAvailable_result (k : Discovery) :
    (k.AnyIngressAvailable.2 ≠ none ↔
      k.IsLegacyIngressAvailable.2 ≠ none ∧ k.IsIngressAvailable.2 ≠ none) ∧
    (k.IsLegacyIngressAvailable.2 ≠ none ∧ k.IsIngressAvailable.2 ≠ none →
      k.AnyIngressAvailable = (false, k.IsLegacyIngressAvailable.2)) ∧
    (¬ (k.IsLegacyIngressAvailable.2 ≠ none ∧ k.IsIngressAvailable.2 ≠ none) →
      k.AnyIngressAvailable
        = (k.IsLegacyIngressAvailable.1 || k.IsIngressAvailable.1, none)) := by
  rcases k with ⟨route, ⟨lb, le⟩, ⟨ib, ie⟩⟩
  rcases le with _ | le <;> rcases ie with _ | ie <;>
    simp [Discovery.AnyIngressAvailable]

/-- When `AnyIngressAvailable` returns an error, it returns false with it. -/
theorem AnyIngressAvailable_error_flag (k : Discovery) (h : k.AnyIngressAvailable.2 ≠ none) :
    k.AnyIngressAvailable.1 = false := by
  rcases k with ⟨route, ⟨lb, le⟩, ⟨ib, ie⟩⟩
  rcases le with _ | le <;> rcases ie with _ | ie <;>
    simp_all [Discovery.AnyIngressAvailable]

/-- `SetDefaults` is the run of `setDefaults` with the two booleans of the lookups as
flags. -/
theorem SetDefaults_eq {σ : Type} (k : Discovery) (fw : Framework σ) (n : Nexus) (s : σ) :
    SetDefaults k fw n s =
      (defaulter.setDefaults fw ⟨n, k.IsRouteAvailable.1, k.AnyIngressAvailable.1⟩ s).map
        (fun r => (r.1.Defaultable, r.2)) := by
  unfold SetDefaults
  rcases hr : k.IsRouteAvailable with ⟨rb, re⟩
  rcases hi : k.AnyIngressAvailable with ⟨ib, ie⟩
  dsimp only
  cases hsd : defaulter.setDefaults fw ⟨n, rb, ib⟩ s <;>
    simp [bind, Except.bind, Except.map]

/-- `Validate` is `validate` with the two booleans of the lookups as flags. -/
theorem Validate_eq (k : Discovery) (n : Nexus) :
    Validate k n = validator.validate ⟨n, k.IsRouteAvailable.1, k.AnyIngressAvailable.1⟩ := by
  unfold Validate
  rcases hr : k.IsRouteAvailable with ⟨rb, re⟩
  rcases hi : k.AnyIngressAvailable with ⟨ib, ie⟩
  rfl

/-- When `IsRouteAvailable` returns an error, it returns false with it. -/
theorem IsRouteAvailable_error_flag (k : Discovery) (h : k.IsRouteAvailable.2 ≠ none) :
    k.IsRouteAvailable.1 = false := by
  rcases k with ⟨⟨rb, re⟩, legacy, ingress⟩
  rcases re with _ | re <;> simp_all [Discovery.IsRouteAvailable]

/-- C27: in `Validate` and `SetDefaults`, when the route lookup returns an error the route
flag used by the rules is false, and when the ingress lookup returns an error the ingress
flag is false, whatever booleans the cluster queries carried; the operation does not abort
but is the run of the rules with that flag, and each lookup is absorbed whatever the other
one returns. -/
theorem lookup_errors_absorbed {σ : Type} (k : Discovery) (fw : Framework σ) (n : Nexus)
    (s : σ) :
    (k.IsRouteAvailable.2 ≠ none →
      k.IsRouteAvailable.1 = false ∧
      Validate k n = validator.validate ⟨n, false, k.AnyIngressAvailable.1⟩ ∧
      SetDefaults k fw n s =
        (defaulter.setDefaults fw ⟨n, false, k.AnyIngressAvailable.1⟩ s).map
          (fun r => (r.1.Defaultable, r.2))) ∧
    (k.AnyIngressAvailable.2 ≠ none →
      k.AnyIngressAvailable.1 = false ∧
      Validate k n = validator.validate ⟨n, k.IsRouteAvailable.1, false⟩ ∧
      SetDefaults k fw n s =
        (defaulter.setDefaults fw ⟨n, k.IsRouteAvailable.1, false⟩ s).map
          (fun r => (r.1.Defaultable, r.2))) := by
  rw [SetDefaults_eq, Validate_eq]
  constructor
  · intro herr
    rw [IsRouteAvailable_error_flag k herr]
    exact ⟨rfl, rfl, rfl⟩
  · intro herr
    rw [AnyIngressAvailable_error_flag k herr]
    exact ⟨rfl, rfl, rfl⟩

/-- C27, witness: the query for the Route kind fails while carrying `true`, and the legacy
and the v1 ingress lookups both fail, the legacy one carrying `true`. Both flags are false:
`Validate` rejects a Route exposure as unavailable, and `SetDefaults` chooses NodePort for a
resource that asks to be exposed. -/
theorem lookup_errors_absorbed_witness :
    Validate ⟨(true, some "route failure"), (true, some "legacy failure"), (false, some "failure")⟩
        (AllDefaultsCommunityNexus.withExpose (some true) "Route")
      = some "route expose required, but unavailable" ∧
    (SetDefaults
        ⟨(true, some "route failure"), (true, some "legacy failure"), (false, some "failure")⟩
        offlineFramework (AllDefaultsCommunityNexus.withExpose (some true) "") ()).map
      (fun r => r.1.Spec.Networking.ExposeAs) = .ok "NodePort" := by
  obtain ⟨_, hv, hs⟩ := (lookup_errors_absorbed
    ⟨(true, some "route failure"), (true, some "legacy failure"), (false, some "failure")⟩
    offlineFramework (AllDefaultsCommunityNexus.withExpose (some true) "Route") ()).1
    (by decide)
  obtain ⟨_, _, hs2⟩ := (lookup_errors_absorbed
    ⟨(true, some "route failure"), (true, some "legacy failure"), (false, some "failure")⟩
    offlineFramework (AllDefaultsCommunityNexus.withExpose (some true) "") ()).2
    (by decide)
  refine ⟨?_, ?_⟩
  · rw [hv]
    decide
  · rw [hs2]
    rfl

/-! ## The update stage when it ends enabled -/

/-- When the tail of the update stage ends with the update enabled, the image is the
repository followed by a colon and the tag of a micro lookup for the resulting minor; that
lookup reported found, or it was the second lookup of the fallback. -/
theorem fetchMicro_enabled_result {σ : Type} (fw : Framework σ) (image : String)
    (x y : defaulter) (s s1 : σ) (p : Int)
    (hm : x.Defaultable.Spec.AutomaticUpdate.MinorVersion = some p)
    (h : defaulter.setUpdateDefaults.fetchMicro fw image x s = .ok (y, s1))
    (hen : y.Defaultable.Spec.AutomaticUpdate.Disabled = false) :
    ∃ m t b sx sy, fw.GetLatestMicro m sx = ((t, b), sy) ∧
      y.Defaultable.Spec.AutomaticUpdate.MinorVersion = some m ∧
      y.Defaultable.Spec.Image = image ++ ":" ++ t ∧
      (b = true ∨ ∃ q t0 s0 sa, fw.GetLatestMicro q s0 = ((t0, false), sa) ∧
        fw.GetLatestMinor sa = (.ok m, sx)) := by
  rcases hmic : fw.GetLatestMicro p s with ⟨⟨t, ok⟩, sa⟩
  cases ok
  · rcases hmin : fw.GetLatestMinor sa with ⟨e | m, sb⟩
    · rw [fetchMicro_fails fw image x s sa sb p t e hm hmic hmin] at h
      simp only [Except.ok.injEq, Prod.mk.injEq] at h
      obtain ⟨rfl, _⟩ := h
      simp [defaulter.withNexus, Nexus.DisableUpdate] at hen
    · rcases hmic2 : fw.GetLatestMicro m sb with ⟨⟨t2, b⟩, sc⟩
      obtain ⟨y2, hy, hyi, hym, _⟩ := fetchMicro_fallback fw image x s sa sb sc p m t t2 b hm
        hmic hmin hmic2
      rw [hy] at h
      simp only [Except.ok.injEq, Prod.mk.injEq] at h
      obtain ⟨rfl, _⟩ := h
      exact ⟨m, t2, b, sb, sc, hmic2, hym, hyi, Or.inr ⟨p, t, s, sa, hmic, hmin⟩⟩
  · obtain ⟨y2, hy, hyi, hya⟩ := fetchMicro_found fw image x s sa p t hm hmic
    rw [hy] at h
    simp only [Except.ok.injEq, Prod.mk.injEq] at h
    obtain ⟨rfl, _⟩ := h
    exact ⟨p, t, true, s, sa, hmic, by rw [hya]; exact hm, hyi, Or.inl rfl⟩

/-- When the update stage ends with the update enabled, the image is the community image
followed by a colon and the tag of a micro lookup for the resulting minor; that lookup
reported found, or it was the second lookup of the fallback. -/
theorem setUpdateDefaults_enabled_result {σ : Type} (fw : Framework σ) (x y : defaulter)
    (s s1 : σ) (h : x.setUpdateDefaults fw s = .ok (y, s1))
    (hen : y.Defaultable.Spec.AutomaticUpdate.Disabled = false) :
    ∃ m t b sx sy, fw.GetLatestMicro m sx = ((t, b), sy) ∧
      y.Defaultable.Spec.AutomaticUpdate.MinorVersion = some m ∧
      y.Defaultable.Spec.Image = NexusCommunityImage ++ ":" ++ t ∧
      (b = true ∨ ∃ q t0 s0 sa, fw.GetLatestMicro q s0 = ((t0, false), sa) ∧
        fw.GetLatestMinor sa = (.ok m, sx)) := by
  by_cases hdis : x.Defaultable.Spec.AutomaticUpdate.Disabled = true
  · rw [setUpdateDefaults_disabled fw x s hdis] at h
    simp only [Except.ok.injEq, Prod.mk.injEq] at h
    obtain ⟨rfl, _⟩ := h
    rw [hdis] at hen
    cases hen
  · have hdis2 : x.Defaultable.Spec.AutomaticUpdate.Disabled = false := by simpa using hdis
    by_cases himg : splitHead x.Defaultable.Spec.Image = NexusCommunityImage
    · rcases hm : x.Defaultable.Spec.AutomaticUpdate.MinorVersion with _ | p
      · rcases hmin : fw.GetLatestMinor s with ⟨e | m, sa⟩
        · rw [setUpdateDefaults_unset_fails fw x s sa e hdis2 himg hm hmin] at h
          simp only [Except.ok.injEq, Prod.mk.injEq] at h
          obtain ⟨rfl, _⟩ := h
          simp [defaulter.withNexus, Nexus.DisableUpdate] at hen
        · rw [setUpdateDefaults_unset fw x s sa m hdis2 himg hm hmin] at h
          exact fetchMicro_enabled_result fw NexusCommunityImage
            (x.withNexus (x.Defaultable.SetMinorVersion m)) y sa s1 m rfl h hen
      · rw [setUpdateDefaults_pinned fw x s p hdis2 himg hm] at h
        exact fetchMicro_enabled_result fw NexusCommunityImage x y s s1 p hm h hen
    · rw [setUpdateDefaults_other_image fw x s hdis2 himg] at h
      simp only [Except.ok.injEq, Prod.mk.injEq] at h
      obtain ⟨rfl, _⟩ := h
      simp [defaulter.withNexus, Nexus.DisableUpdate] at hen

/-! ## Automatic update: the resulting tag, the chosen mechanism, the certified image -/

/-- C31, counterexample: the community image, automatic update enabled and the minor pinned
to 29, in front of a resolver that finds no micro for 29, answers 30 as latest minor and
finds no micro for 30 either: defaulting ends with automatic update enabled, the minor 30
and an image that ends with an empty tag. -/
theorem setDefaults_fallback_unresolved_tag :
    ∃ d1,
      defaulter.setDefaults inconsistentFramework
          (plainDefaulter (AllDefaultsCommunityNexus.withUpdate false (some 29))) ()
        = .ok (d1, ()) ∧
      d1.Defaultable.Spec.AutomaticUpdate = { Disabled := false, MinorVersion := some 30 } ∧
      d1.Defaultable.Spec.Image = "docker.io/sonatype/nexus3:" ∧
      inconsistentFramework.GetLatestMicro 30 () = (("", false), ()) :=
  ⟨_, rfl, rfl, rfl, rfl⟩

/-- C31, amended: when a run of defaulting ends with automatic update enabled, the image is
the community image followed by a colon and the tag that a micro lookup answered for the
resulting minor; that lookup reported found, or it was the second micro lookup of the
fallback, whose found flag is not looked at. -/
theorem setDefaults_enabled_image {σ : Type} (fw : Framework σ) (d d1 : defaulter)
    (s s1 : σ) (h : d.setDefaults fw s = .ok (d1, s1))
    (hen : d1.Defaultable.Spec.AutomaticUpdate.Disabled = false) :
    ∃ m t b sx sy, fw.GetLatestMicro m sx = ((t, b), sy) ∧
      d1.Defaultable.Spec.AutomaticUpdate.MinorVersion = some m ∧
      d1.Defaultable.Spec.Image = NexusCommunityImage ++ ":" ++ t ∧
      (b = true ∨ ∃ q t0 s0 sa, fw.GetLatestMicro q s0 = ((t0, false), sa) ∧
        fw.GetLatestMinor sa = (.ok m, sx)) := by
  obtain ⟨_, _, _, _, _, dp, d2, hu, _, _, h1i, h1a⟩ := setDefaults_ok_fields fw d d1 s s1 h
  rw [h1i, h1a]
  rw [h1a] at hen
  exact setUpdateDefaults_enabled_result fw dp d2 s s1 hu hen

/-- C31, witness: the default resource with its image unset, in front of the registry: the
image ends with the micro tag found for the minor 29. -/
theorem setDefaults_enabled_image_witness :
    ∃ d1,
      defaulter.setDefaults registryFramework
          (plainDefaulter (AllDefaultsCommunityNexus.withImage false "")) ()
        = .ok (d1, ()) ∧
      d1.Defaultable.Spec.AutomaticUpdate.Disabled = false ∧
      ∃ m t b sx sy, registryFramework.GetLatestMicro m sx = ((t, b), sy) ∧
        d1.Defaultable.Spec.AutomaticUpdate.MinorVersion = some m ∧
        d1.Defaultable.Spec.Image = NexusCommunityImage ++ ":" ++ t ∧
        (b = true ∨ ∃ q t0 s0 sa, registryFramework.GetLatestMicro q s0 = ((t0, false), sa) ∧
          registryFramework.GetLatestMinor sa = (.ok m, sx)) := by
  refine ⟨_, rfl, rfl, ?_⟩
  exact setDefaults_enabled_image registryFramework
    (plainDefaulter (AllDefaultsCommunityNexus.withImage false "")) _ () () rfl rfl

/-- C32: with `expose` true and `exposeAs` unset, the configuration left by a run of
defaulting is never rejected by `validate`, under the same capability snapshot, with the
message of ingress-unavailable or of route-unavailable: the mechanism chosen is Route with
routes available, Ingress with ingresses available, or NodePort. -/
theorem setDefaults_then_validate_mechanism_available {σ : Type} (fw : Framework σ)
    (d d1 : defaulter) (s s1 : σ) (h : d.setDefaults fw s = .ok (d1, s1))
    (hexp : d.Defaultable.Spec.Networking.Expose = some true)
    (has : d.Defaultable.Spec.Networking.ExposeAs = "") :
    validator.validate ⟨d1.Defaultable, d.routeAvailable, d.ingressAvailable⟩
      ≠ some "ingress expose required, but unavailable" ∧
    validator.validate ⟨d1.Defaultable, d.routeAvailable, d.ingressAvailable⟩
      ≠ some "route expose required, but unavailable" ∧
    ((d1.Defaultable.Spec.Networking.ExposeAs = "Route" ∧ d.routeAvailable = true) ∨
      (d1.Defaultable.Spec.Networking.ExposeAs = "Ingress" ∧ d.ingressAvailable = true) ∨
      d1.Defaultable.Spec.Networking.ExposeAs = "NodePort") := by
  obtain ⟨_, _, hnet, _⟩ := setDefaults_ok_fields fw d d1 s s1 h
  obtain ⟨he, ha⟩ := setNetworkingDefaults_expose d
  rw [← hnet, hexp] at he
  rw [← hnet, hexp, has] at ha
  have hchoice : (d1.Defaultable.Spec.Networking.ExposeAs = "Route" ∧ d.routeAvailable = true) ∨
      (d1.Defaultable.Spec.Networking.ExposeAs = "Ingress" ∧ d.ingressAvailable = true) ∨
      d1.Defaultable.Spec.Networking.ExposeAs = "NodePort" := by
    rw [ha]
    cases hr : d.routeAvailable <;> cases hi : d.ingressAvailable <;> simp
  have key : ∀ r : Reason,
      firstViolatedRule ⟨d1.Defaultable, d.routeAvailable, d.ingressAvailable⟩ = some r →
      r ≠ .ingressUnavailable ∧ r ≠ .routeUnavailable := by
    intro r hr
    have hholds := List.find?_some hr
    simp only [decide_eq_true_eq] at hholds
    constructor
    · rintro rfl
      have h1 : d1.Defaultable.Spec.Networking.ExposeAs = "Ingress" := hholds.1
      have h2 : d.ingressAvailable = false := hholds.2
      rcases hchoice with ⟨hc, _⟩ | ⟨_, hc⟩ | hc
      · rw [hc] at h1
        exact absurd h1 (by decide)
      · rw [h2] at hc
        cases hc
      · rw [hc] at h1
        exact absurd h1 (by decide)
    · rintro rfl
      have h1 : d1.Defaultable.Spec.Networking.ExposeAs = "Route" := hholds.1
      have h2 : d.routeAvailable = false := hholds.2
      rcases hchoice with ⟨_, hc⟩ | ⟨hc, _⟩ | hc
      · rw [h2] at hc
        cases hc
      · rw [hc] at h1
        exact absurd h1 (by decide)
      · rw [hc] at h1
        exact absurd h1 (by decide)
  rw [validate_eq_firstViolatedRule]
  refine ⟨?_, ?_, hchoice⟩
  · intro hv
    rw [if_pos he] at hv
    cases hr : firstViolatedRule ⟨d1.Defaultable, d.routeAvailable, d.ingressAvailable⟩ with
    | none => rw [hr] at hv; cases hv
    | some r =>
      rw [hr] at hv
      obtain ⟨k1, _⟩ := key r hr
      cases r <;> simp [Reason.message] at hv k1
  · intro hv
    rw [if_pos he] at hv
    cases hr : firstViolatedRule ⟨d1.Defaultable, d.routeAvailable, d.ingressAvailable⟩ with
    | none => rw [hr] at hv; cases hv
    | some r =>
      rw [hr] at hv
      obtain ⟨_, k2⟩ := key r hr
      cases r <;> simp [Reason.message] at hv k2

/-- C32, witness: `expose` true and `exposeAs` unset on a cluster with ingresses only:
defaulting chooses Ingress, and `validate` rejects for the missing host, not for a missing
capability. -/
theorem setDefaults_then_validate_mechanism_available_witness :
    ∃ d1,
      defaulter.setDefaults offlineFramework
          ⟨AllDefaultsCommunityNexus.withExpose (some true) "", false, true⟩ ()
        = .ok (d1, ()) ∧
      validator.validate ⟨d1.Defaultable, false, true⟩
        = some "ingress expose required, but no host informed" ∧
      validator.validate ⟨d1.Defaultable, false, true⟩
        ≠ some "ingress expose required, but unavailable" ∧
      validator.validate ⟨d1.Defaultable, false, true⟩
        ≠ some "route expose required, but unavailable" := by
  refine ⟨_, rfl, by decide, ?_⟩
  have hw := setDefaults_then_validate_mechanism_available offlineFramework
    ⟨AllDefaultsCommunityNexus.withExpose (some true) "", false, true⟩ _ () () rfl rfl rfl
  exact ⟨hw.1, hw.2.1⟩

/-- C33: with `useRedHatImage` true, after a run of defaulting automatic update is
disabled and the minor is unchanged, and the resolver state is untouched whatever the
resolver is: the resolver was not consulted. -/
theorem setDefaults_certified_disables_update {σ : Type} (fw : Framework σ)
    (d d1 : defaulter) (s s1 : σ) (h : d.setDefaults fw s = .ok (d1, s1))
    (hrh : d.Defaultable.Spec.UseRedHatImage = true) :
    d1.Defaultable.Spec.AutomaticUpdate.Disabled = true ∧
    d1.Defaultable.Spec.AutomaticUpdate.MinorVersion
      = d.Defaultable.Spec.AutomaticUpdate.MinorVersion ∧
    s1 = s := by
  obtain ⟨_, _, _, _, _, dp, d2, hu, hi, hau, _, h1a⟩ := setDefaults_ok_fields fw d d1 s s1 h
  have hdp : dp.Defaultable.Spec.Image = NexusCertifiedImage := by
    rw [hi, setImageDefaults_image, hrh]
    simp
  rw [h1a, ← hau]
  by_cases hdis : dp.Defaultable.Spec.AutomaticUpdate.Disabled = true
  · rw [setUpdateDefaults_disabled fw dp s hdis] at hu
    simp only [Except.ok.injEq, Prod.mk.injEq] at hu
    obtain ⟨rfl, rfl⟩ := hu
    exact ⟨hdis, rfl, rfl⟩
  · rw [setUpdateDefaults_other_image fw dp s (by simpa using hdis)
      (by rw [hdp]; decide)] at hu
    simp only [Except.ok.injEq, Prod.mk.injEq] at hu
    obtain ⟨rfl, rfl⟩ := hu
    exact ⟨rfl, rfl, rfl⟩

/-- C33, witness: `useRedHatImage` true with automatic update enabled and the minor pinned
to 29, in front of the registry. -/
theorem setDefaults_certified_disables_update_witness :
    ∃ d1,
      defaulter.setDefaults registryFramework
          (plainDefaulter ((AllDefaultsCommunityNexus.withImage true "").withUpdate
            false (some 29))) ()
        = .ok (d1, ()) ∧
      d1.Defaultable.Spec.AutomaticUpdate.Disabled = true ∧
      d1.Defaultable.Spec.AutomaticUpdate.MinorVersion = some 29 := by
  refine ⟨_, rfl, ?_⟩
  have hw := setDefaults_certified_disables_update registryFramework
    (plainDefaulter ((AllDefaultsCommunityNexus.withImage true "").withUpdate
      false (some 29))) _ () () rfl rfl
  exact ⟨hw.1, hw.2.1⟩

end Nexus3
